import Mathlib

/-!
PlannerPDF: page composition and grid linking (`include/planner_base.hpp`)

A shallow embedding of `PlannerBase`: the calls a member function makes on the
rendering backend are collected, in program order, as a list of `PageOp`s.

Conventions of the embedding
* `HPDF_REAL` is idealised as exact rational arithmetic (`ℚ`); rounding of the
  single-precision type is outside the model.
* `size_t` values are naturals; the one `size_t` sum the code computes
  (`first_entry_offset + objects.size()`) is reduced modulo `2 ^ 64`.  Loop
  counters only ever count up from `0` one step per iteration and are not reduced.
* A `std::shared_ptr<PlannerBase>` neighbour (`_parent`, `_left`, `_right`) is
  represented by the page handle its `GetPage()` returns, the only member the code
  reads through the pointer; `none` is the null pointer.
* `GetCenteredTextXPosition` (from `utils.hpp`) and `HPDF_Page_TextWidth` (libharu)
  are parameters, collected in `Backend`.
* `CreateThumbnailCaller` is not part of this header: the call is recorded with its
  arguments, and it is taken to leave the font selected on the page unchanged.
* The loops run on fuel.  The fuel each is started with is never used up before the loop
  condition fails (`colLoop_fuel_enough`, `rowLoop_fuel_enough`, `rowLines_fuel_enough`,
  `colLines_fuel_enough`), so the functions below compute the result of the loops.
-/

namespace PlannerPDF

/-- The real-number type of libharu, as exact rationals. -/
abbrev HPDF_REAL := ℚ

/-- Handle of a page object of the rendering backend. -/
abbrev HPDF_Page := ℕ

/-- Handle of a font object (its name). -/
abbrev HPDF_Font := String

/-- Page-kind tag from `utils.hpp`; only passed through to the thumbnail caller. -/
abbrev PlannerTypes := ℕ

/-- Number of values of a `size_t`. -/
def SIZE_T_RANGE : ℕ := 2 ^ 64

/-- Addition of two `size_t` values. -/
def size_t_add (a b : ℕ) : ℕ := (a + b) % SIZE_T_RANGE

/-- The libharu rectangle, fields in declaration order. -/
structure HPDF_Rect where
  left : HPDF_REAL
  bottom : HPDF_REAL
  right : HPDF_REAL
  top : HPDF_REAL
deriving DecidableEq

/-- A destination created by `HPDF_Page_CreateDestination (target)`. -/
structure HPDF_Destination where
  target : HPDF_Page
deriving DecidableEq

/-- Result of `HPDF_Page_CreateDestination`. -/
def HPDF_Page_CreateDestination (target : HPDF_Page) : HPDF_Destination := ⟨target⟩

/-- The data members of `PlannerBase`. -/
structure PlannerBase where
  _id : ℕ
  _note_section_percentage : HPDF_REAL
  _page : HPDF_Page
  _notes_font : HPDF_Font
  _page_height : HPDF_REAL
  _page_width : HPDF_REAL
  _page_title : String
  _grid_string : String
  _page_title_font_size : HPDF_REAL
  _note_title_font_size : HPDF_REAL
  _parent : Option HPDF_Page
  _left : Option HPDF_Page
  _right : Option HPDF_Page

/-- Accessor `GetGridString`. -/
def PlannerBase.GetGridString (self : PlannerBase) : String := self._grid_string

/-- Accessor `GetPage`. -/
def PlannerBase.GetPage (self : PlannerBase) : HPDF_Page := self._page

/-- Setter `SetNotesSectionPercentage`: stores the argument. -/
def PlannerBase.SetNotesSectionPercentage (self : PlannerBase)
    (notes_section_percentage : HPDF_REAL) : PlannerBase :=
  ⟨self._id, notes_section_percentage, self._page, self._notes_font, self._page_height,
    self._page_width, self._page_title, self._grid_string, self._page_title_font_size,
    self._note_title_font_size, self._parent, self._left, self._right⟩

/-- Text metrics the code consumes: both depend on the font and size current on the page. -/
structure Backend where
  HPDF_Page_TextWidth : HPDF_Font → HPDF_REAL → String → HPDF_REAL
  GetCenteredTextXPosition : HPDF_Font → HPDF_REAL → String → HPDF_REAL → HPDF_REAL → HPDF_REAL

/-- One call on the page of the rendering backend. -/
inductive PageOp where
  | SetFontAndSize (font : HPDF_Font) (size : HPDF_REAL)
  | SetLineWidth (width : HPDF_REAL)
  | BeginText
  | MoveTextPos (x y : HPDF_REAL)
  | CreateLinkAnnot (rect : HPDF_Rect) (dest : HPDF_Destination)
  | ShowText (text : String)
  | EndText
  | MoveTo (x y : HPDF_REAL)
  | LineTo (x y : HPDF_REAL)
  | Stroke
  | CreateThumbnailCaller (x_start y_start x_stop y_stop : HPDF_REAL)
      (page_type object_type : PlannerTypes) (object : PlannerBase)

/-! ## CreateTitle, AddNavigation, CreateNotesSection -/

/-- Member function `CreateTitle` (lines 129-147). -/
def PlannerBase.CreateTitle (bk : Backend) (self : PlannerBase) : List PageOp :=
  let page_title_text_x :=
    bk.GetCenteredTextXPosition self._notes_font self._page_title_font_size self._page_title 0
      self._page_width
  [PageOp.SetFontAndSize self._notes_font self._page_title_font_size,
   PageOp.SetLineWidth 1,
   PageOp.BeginText,
   PageOp.MoveTextPos page_title_text_x (self._page_height - self._page_title_font_size - 10)]
  ++ (match self._parent with
      | some parent_page =>
        let dest := HPDF_Page_CreateDestination parent_page
        let length :=
          bk.HPDF_Page_TextWidth self._notes_font self._page_title_font_size self._page_title
        let rect : HPDF_Rect :=
          ⟨page_title_text_x, self._page_height, page_title_text_x + length,
            self._page_height - (self._page_title_font_size * 2)⟩
        [PageOp.CreateLinkAnnot rect dest]
      | none => [])
  ++ [PageOp.ShowText self._page_title, PageOp.EndText]

/-- Member function `AddNavigation` (lines 152-191). -/
def PlannerBase.AddNavigation (bk : Backend) (self : PlannerBase) : List PageOp :=
  let left_string := "<"
  let right_string := ">"
  let page_title_text_x :=
    bk.GetCenteredTextXPosition self._notes_font self._page_title_font_size self._page_title 0
      self._page_width
  [PageOp.SetFontAndSize self._notes_font self._page_title_font_size,
   PageOp.SetLineWidth 1]
  ++ (match self._left with
      | some left_page =>
        let dest := HPDF_Page_CreateDestination left_page
        let length :=
          bk.HPDF_Page_TextWidth self._notes_font self._page_title_font_size left_string
        let rect : HPDF_Rect :=
          ⟨page_title_text_x - 100, self._page_height, page_title_text_x - 100 + length,
            self._page_height - (self._page_title_font_size * 2)⟩
        [PageOp.BeginText,
         PageOp.MoveTextPos (page_title_text_x - 100)
           (self._page_height - self._page_title_font_size - 10),
         PageOp.CreateLinkAnnot rect dest,
         PageOp.ShowText left_string,
         PageOp.EndText]
      | none => [])
  ++ (match self._right with
      | some right_page =>
        let title_length :=
          bk.HPDF_Page_TextWidth self._notes_font self._page_title_font_size self._page_title
        let dest := HPDF_Page_CreateDestination right_page
        let length :=
          bk.HPDF_Page_TextWidth self._notes_font self._page_title_font_size right_string
        let rect : HPDF_Rect :=
          ⟨page_title_text_x + title_length + 100, self._page_height,
            page_title_text_x + title_length + 100 + length,
            self._page_height - (self._page_title_font_size * 2)⟩
        [PageOp.BeginText,
         PageOp.MoveTextPos (page_title_text_x + title_length + 100)
           (self._page_height - self._page_title_font_size - 10),
         PageOp.CreateLinkAnnot rect dest,
         PageOp.ShowText right_string,
         PageOp.EndText]
      | none => [])

/-- Member function `CreateNotesSection` (lines 196-236); the dotted fill is commented out
in the source and emits nothing. -/
def PlannerBase.CreateNotesSection (bk : Backend) (self : PlannerBase) : List PageOp :=
  let notes_divider_x := self._page_width * self._note_section_percentage
  let notes_string := "Notes"
  let notes_section_text_x :=
    bk.GetCenteredTextXPosition self._notes_font self._note_title_font_size notes_string 0
      notes_divider_x
  [PageOp.SetFontAndSize self._notes_font self._note_title_font_size,
   PageOp.SetLineWidth 1,
   PageOp.MoveTo notes_divider_x 0,
   PageOp.LineTo notes_divider_x (self._page_height - self._page_title_font_size - 20),
   PageOp.Stroke,
   PageOp.BeginText,
   PageOp.MoveTextPos notes_section_text_x
     (self._page_height - self._page_title_font_size - self._note_title_font_size - 10),
   PageOp.ShowText notes_string,
   PageOp.EndText,
   PageOp.SetLineWidth 1,
   PageOp.MoveTo 120 0,
   PageOp.LineTo 120 self._page_height,
   PageOp.Stroke]

/-! ## CreateGrid -/

/-- The loop variables at the moment the body of `if (first_entry_offset == 0)` runs:
one child placement. -/
structure GridCell where
  row_num : ℕ
  col_num : ℕ
  x : HPDF_REAL
  y : HPDF_REAL
  object_index : ℕ
  object : PlannerBase

/-- The inner `for` loop of `CreateGrid` (lines 266-312) for one row.  Returns the
placements of the row and the values of `object_index` and `first_entry_offset` after it.
Each iteration either advances `object_index` towards `objects.size()` or decrements
`first_entry_offset`, so `first_entry_offset + (objects.size() - object_index)` iterations
of fuel are never used up before the loop condition fails. -/
def colLoop (x_stop num_cols x_step_size : HPDF_REAL) (objects : List PlannerBase)
    (y : HPDF_REAL) (row_num : ℕ) :
    ℕ → HPDF_REAL → ℕ → ℕ → ℕ → List GridCell × ℕ × ℕ
  | 0, _, _, object_index, first_entry_offset => ([], object_index, first_entry_offset)
  | fuel + 1, x, col_num, object_index, first_entry_offset =>
    if h : x < x_stop ∧ object_index < objects.length ∧ (col_num : HPDF_REAL) < num_cols then
      if first_entry_offset = 0 then
        let r := colLoop x_stop num_cols x_step_size objects y row_num fuel
          (x + x_step_size) (col_num + 1) (object_index + 1) first_entry_offset
        (⟨row_num, col_num, x, y, object_index, objects.get ⟨object_index, h.2.1⟩⟩ :: r.1, r.2)
      else
        colLoop x_stop num_cols x_step_size objects y row_num fuel
          (x + x_step_size) (col_num + 1) object_index (first_entry_offset - 1)
    else ([], object_index, first_entry_offset)

/-- The outer `for` loop of `CreateGrid` (lines 263-313).  `row_num < num_rows` fails
after `⌈num_rows⌉₊` iterations at the latest. -/
def rowLoop (x_start x_stop y_stop num_cols x_step_size y_step_size num_rows : HPDF_REAL)
    (objects : List PlannerBase) :
    ℕ → HPDF_REAL → ℕ → ℕ → ℕ → List GridCell
  | 0, _, _, _, _ => []
  | fuel + 1, y, row_num, object_index, first_entry_offset =>
    if y < y_stop ∧ (row_num : HPDF_REAL) < num_rows then
      let r := colLoop x_stop num_cols x_step_size objects y row_num
        (first_entry_offset + (objects.length - object_index)) x_start 0 object_index
        first_entry_offset
      r.1 ++ rowLoop x_start x_stop y_stop num_cols x_step_size y_step_size num_rows objects
        fuel (y + y_step_size) (row_num + 1) r.2.1 r.2.2
    else []

/-- The four locals of lines 270-273, in top-down coordinates. -/
structure PaddedCell where
  x_pad_start : HPDF_REAL
  y_pad_start : HPDF_REAL
  x_pad_end : HPDF_REAL
  y_pad_end : HPDF_REAL
deriving DecidableEq

/-- The padded sub-rectangle of the cell being visited (lines 270-273). -/
def paddedCell (x_step_size y_step_size padding : HPDF_REAL) (c : GridCell) : PaddedCell :=
  ⟨c.x + padding, c.y + padding, c.x + x_step_size - padding, c.y + y_step_size - padding⟩

/-- The body of `if (first_entry_offset == 0)` (lines 275-306): the backend calls of one
child placement.  The grid font is Helvetica at size 25. -/
def placeOps (bk : Backend) (x_step_size y_step_size : HPDF_REAL) (create_annotations : Bool)
    (create_thumbnail : Bool) (page_type object_type : PlannerTypes)
    (page_height padding : HPDF_REAL) (c : GridCell) : List PageOp :=
  let pad := paddedCell x_step_size y_step_size padding c
  let grid_x_start :=
    bk.GetCenteredTextXPosition "Helvetica" 25 c.object.GetGridString pad.x_pad_start
      pad.x_pad_end
  let grid_y_start := page_height - pad.y_pad_start - 30
  [PageOp.BeginText, PageOp.MoveTextPos grid_x_start grid_y_start]
  ++ (if create_annotations = true then
        let dest := HPDF_Page_CreateDestination c.object.GetPage
        let rect_y_end :=
          if create_thumbnail = true then page_height - pad.y_pad_start - 50
          else page_height - pad.y_pad_end
        let rect : HPDF_Rect :=
          ⟨pad.x_pad_start, rect_y_end, pad.x_pad_end, page_height - pad.y_pad_start⟩
        [PageOp.CreateLinkAnnot rect dest]
      else [])
  ++ [PageOp.ShowText c.object.GetGridString, PageOp.EndText]
  ++ (if create_thumbnail = true then
        [PageOp.CreateThumbnailCaller pad.x_pad_start pad.y_pad_start pad.x_pad_end
          pad.y_pad_end page_type object_type c.object]
      else [])

/-- The row separator loop (lines 316-327). -/
def rowLines (x_start y_start x_stop y_step_size num_rows page_height : HPDF_REAL) :
    ℕ → ℕ → List PageOp
  | 0, _ => []
  | fuel + 1, row_num =>
    if (row_num : HPDF_REAL) < num_rows then
      let x_line_start := x_start
      let x_line_stop := x_stop
      let y_line_start := y_start + row_num * y_step_size
      let y_line_stop := y_start + row_num * y_step_size
      [PageOp.SetLineWidth 2,
       PageOp.MoveTo x_line_start (page_height - y_line_start),
       PageOp.LineTo x_line_stop (page_height - y_line_stop),
       PageOp.Stroke]
      ++ rowLines x_start y_start x_stop y_step_size num_rows page_height fuel (row_num + 1)
    else []

/-- The column separator loop (lines 329-340). -/
def colLines (x_start y_start y_stop x_step_size num_cols page_height : HPDF_REAL) :
    ℕ → ℕ → List PageOp
  | 0, _ => []
  | fuel + 1, col_num =>
    if (col_num : HPDF_REAL) < num_cols then
      let x_line_start := x_start + x_step_size * col_num
      let x_line_stop := x_start + x_step_size * col_num
      let y_line_start := y_start
      let y_line_stop := y_stop
      [PageOp.SetLineWidth 1,
       PageOp.MoveTo x_line_start (page_height - y_line_start),
       PageOp.LineTo x_line_stop (page_height - y_line_stop),
       PageOp.Stroke]
      ++ colLines x_start y_start y_stop x_step_size num_cols page_height fuel (col_num + 1)
    else []

/-- The values streamed to `std::cout` after the `[ERR]` text (lines 250-253). -/
structure CapacityReport where
  num_rows : HPDF_REAL
  num_cols : HPDF_REAL
  first_entry_offset : ℕ
  num_objects : ℕ
deriving DecidableEq

/-- Everything a run of `CreateGrid` does: the function returns `void`, so besides the
line on `std::cout` there are only the calls on the page. -/
structure GridRun where
  cout : Option CapacityReport
  page : List PageOp

/-- The guard of line 249. -/
def capacityExceeded (num_rows num_cols : HPDF_REAL) (objects : List PlannerBase)
    (first_entry_offset : ℕ) : Prop :=
  ((size_t_add first_entry_offset objects.length : ℕ) : HPDF_REAL) > num_rows * num_cols

instance (num_rows num_cols : HPDF_REAL) (objects : List PlannerBase)
    (first_entry_offset : ℕ) :
    Decidable (capacityExceeded num_rows num_cols objects first_entry_offset) := by
  unfold capacityExceeded; infer_instance

/-- The placements of the nested loops of `CreateGrid`, started as the source does. -/
def gridWalk (x_start y_start x_stop y_stop num_rows num_cols : HPDF_REAL)
    (objects : List PlannerBase) (first_entry_offset : ℕ) : List GridCell :=
  let x_step_size := (x_stop - x_start) / num_cols
  let y_step_size := (y_stop - y_start) / num_rows
  rowLoop x_start x_stop y_stop num_cols x_step_size y_step_size num_rows objects
    ⌈num_rows⌉₊ y_start 0 0 first_entry_offset

/-- Member function `CreateGrid` (lines 241-341), parameters in source order without
`doc` and `page` (every call goes to `page`). -/
def CreateGrid (bk : Backend) (x_start y_start x_stop y_stop num_rows num_cols : HPDF_REAL)
    (objects : List PlannerBase) (create_annotations : Bool) (first_entry_offset : ℕ)
    (create_thumbnail : Bool) (page_type object_type : PlannerTypes)
    (page_height padding : HPDF_REAL) : GridRun :=
  if capacityExceeded num_rows num_cols objects first_entry_offset then
    ⟨some ⟨num_rows, num_cols, first_entry_offset, objects.length⟩, []⟩
  else
    let x_step_size := (x_stop - x_start) / num_cols
    let y_step_size := (y_stop - y_start) / num_rows
    ⟨none,
      [PageOp.SetFontAndSize "Helvetica" 25]
      ++ (gridWalk x_start y_start x_stop y_stop num_rows num_cols objects
            first_entry_offset).flatMap
          (placeOps bk x_step_size y_step_size create_annotations create_thumbnail page_type
            object_type page_height padding)
      ++ rowLines x_start y_start x_stop y_step_size num_rows page_height ⌈num_rows⌉₊ 0
      ++ colLines x_start y_start y_stop x_step_size num_cols page_height ⌈num_cols⌉₊ 1⟩

/-- The placements `CreateGrid` makes: none when the guard rejects the call. -/
def gridCells (x_start y_start x_stop y_stop num_rows num_cols : HPDF_REAL)
    (objects : List PlannerBase) (first_entry_offset : ℕ) : List GridCell :=
  if capacityExceeded num_rows num_cols objects first_entry_offset then []
  else gridWalk x_start y_start x_stop y_stop num_rows num_cols objects first_entry_offset

/-! ## Reading a list of backend calls -/

/-- The calls that make up a separator line: width, path and stroke. -/
def isLineOp : PageOp → Bool
  | PageOp.SetLineWidth _ => true
  | PageOp.MoveTo _ _ => true
  | PageOp.LineTo _ _ => true
  | PageOp.Stroke => true
  | _ => false

/-- The calls that make up a child placement: the text object, the link annotation and
the thumbnail call. -/
def isPlacementOp : PageOp → Bool
  | PageOp.BeginText => true
  | PageOp.MoveTextPos _ _ => true
  | PageOp.CreateLinkAnnot _ _ => true
  | PageOp.ShowText _ => true
  | PageOp.EndText => true
  | PageOp.CreateThumbnailCaller _ _ _ _ _ _ _ => true
  | _ => false

/-- The link annotations of a call list, in order: rectangle and target page. -/
def linkAnnots : List PageOp → List (HPDF_Rect × HPDF_Page)
  | [] => []
  | PageOp.CreateLinkAnnot rect dest :: ops => (rect, dest.target) :: linkAnnots ops
  | _ :: ops => linkAnnots ops

/-- The strings shown by a call list, in order. -/
def shownTexts : List PageOp → List String
  | [] => []
  | PageOp.ShowText text :: ops => text :: shownTexts ops
  | _ :: ops => shownTexts ops

/-- The cell with row-major index `k` of a grid of `cols` columns, holding child `i`. -/
def cellAt (x_start y_start x_step_size y_step_size : HPDF_REAL) (cols : ℕ) (k i : ℕ)
    (object : PlannerBase) : GridCell :=
  ⟨k / cols, k % cols, x_start + ((k % cols : ℕ) : HPDF_REAL) * x_step_size,
    y_start + ((k / cols : ℕ) : HPDF_REAL) * y_step_size, i, object⟩

/-- Row-major placement: the children of the list, numbered from `i`, in the cells
`offset + i`, `offset + i + 1`, ... -/
def rowMajorCells (x_start y_start x_step_size y_step_size : HPDF_REAL) (cols : ℕ)
    (offset : ℕ) : ℕ → List PlannerBase → List GridCell
  | _, [] => []
  | i, object :: rest =>
    cellAt x_start y_start x_step_size y_step_size cols (offset + i) i object
      :: rowMajorCells x_start y_start x_step_size y_step_size cols offset (i + 1) rest

/-- What of a run reaches the caller of `CreateGrid`: the function is `void`, so nothing
is returned, and of the calls on the page those that put something on it, which is every
call but the font selection. -/
def callerResult (run : GridRun) : Unit × List PageOp :=
  ((), run.page.filter (fun op => isPlacementOp op || isLineOp op))

/-- A page node as the constructors of `PlannerBase` initialise it, with page handle
`100 + i` and an 800 by 600 page. -/
def sampleNode (i : ℕ) : PlannerBase :=
  ⟨0, 1 / 2, 100 + i, "Helvetica", 800, 600, "Base", "GridBase", 45, 35, none, none, none⟩

/-- A text metric for examples: every character is half the font size wide, and centring
puts the middle of the text on the middle of the span. -/
def sampleBackend : Backend :=
  ⟨fun _ size text => (text.length : HPDF_REAL) * size / 2,
   fun _ size text span_start span_stop =>
     (span_start + span_stop) / 2 - (text.length : HPDF_REAL) * size / 4⟩

/-- The node `sampleNode 0` with the given neighbour pointers. -/
def sampleLinked (parent left right : Option HPDF_Page) : PlannerBase :=
  ⟨0, 1 / 2, 100, "Helvetica", 800, 600, "Base", "GridBase", 45, 35, parent, left, right⟩

/-- Reference walk of the specification (section 4.4, step 3), one row: every cell with
`col < cols` is visited, left to right; while `skip > 0` the cell is skipped and `skip`
decremented, otherwise `objects[objectIndex]` is placed while
`objectIndex < len(objects)`.  `todo` counts the cells of the row still to visit.  Returns
the placements, `skip` and `objectIndex`. -/
def referenceRow (x_start y_start x_step_size y_step_size : HPDF_REAL)
    (objects : List PlannerBase) (row : ℕ) : ℕ → ℕ → ℕ → ℕ → List GridCell × ℕ × ℕ
  | 0, _, skip, objectIndex => ([], skip, objectIndex)
  | todo + 1, col, skip, objectIndex =>
    if 0 < skip then
      referenceRow x_start y_start x_step_size y_step_size objects row todo (col + 1)
        (skip - 1) objectIndex
    else if h : objectIndex < objects.length then
      let r := referenceRow x_start y_start x_step_size y_step_size objects row todo
        (col + 1) skip (objectIndex + 1)
      (⟨row, col, x_start + (col : HPDF_REAL) * x_step_size,
          y_start + (row : HPDF_REAL) * y_step_size, objectIndex,
          objects.get ⟨objectIndex, h⟩⟩ :: r.1, r.2)
    else
      referenceRow x_start y_start x_step_size y_step_size objects row todo (col + 1) skip
        objectIndex

/-- Reference walk of the specification, the rows top to bottom; `todo` counts the
rows still to visit. -/
def referenceRows (x_start y_start x_step_size y_step_size : HPDF_REAL) (cols : ℕ)
    (objects : List PlannerBase) : ℕ → ℕ → ℕ → ℕ → List GridCell
  | 0, _, _, _ => []
  | todo + 1, row, skip, objectIndex =>
    let r := referenceRow x_start y_start x_step_size y_step_size objects row cols 0 skip
      objectIndex
    r.1 ++ referenceRows x_start y_start x_step_size y_step_size cols objects todo (row + 1)
      r.2.1 r.2.2

/-- Reference walk of the specification over the whole grid: the bound is `row < rows`
and `col < cols` only, `skip` starts at `firstEntryOffset` and `objectIndex` at 0. -/
def referenceWalk (x_start y_start x_stop y_stop : HPDF_REAL) (rows cols : ℕ)
    (objects : List PlannerBase) (firstEntryOffset : ℕ) : List GridCell :=
  referenceRows x_start y_start ((x_stop - x_start) / cols) ((y_stop - y_start) / rows) cols
    objects rows 0 firstEntryOffset 0

/-- The arguments of the `HPDF_Page_MoveTextPos` calls of a call list, in order. -/
def textPositions : List PageOp → List (HPDF_REAL × HPDF_REAL)
  | [] => []
  | PageOp.MoveTextPos x y :: ops => (x, y) :: textPositions ops
  | _ :: ops => textPositions ops

/-- The rectangle of lines 288-293 for a placement. -/
def gridLinkRect (x_step_size y_step_size : HPDF_REAL) (create_thumbnail : Bool)
    (page_height padding : HPDF_REAL) (c : GridCell) : HPDF_Rect :=
  ⟨(paddedCell x_step_size y_step_size padding c).x_pad_start,
   if create_thumbnail = true then
     page_height - (paddedCell x_step_size y_step_size padding c).y_pad_start - 50
   else page_height - (paddedCell x_step_size y_step_size padding c).y_pad_end,
   (paddedCell x_step_size y_step_size padding c).x_pad_end,
   page_height - (paddedCell x_step_size y_step_size padding c).y_pad_start⟩

/-- The rectangle is a proper rectangle lying in `[left, right] × [bottom, top]`. -/
def HPDF_Rect.within (r : HPDF_Rect) (left bottom right top : HPDF_REAL) : Prop :=
  left ≤ r.left ∧ r.left ≤ r.right ∧ r.right ≤ right ∧
    bottom ≤ r.bottom ∧ r.bottom ≤ r.top ∧ r.top ≤ top

/-- Some point lies strictly inside both rectangles. -/
def sharesInterior (a b : HPDF_Rect) : Prop :=
  ∃ px py : HPDF_REAL,
    (a.left < px ∧ px < a.right ∧ a.bottom < py ∧ py < a.top) ∧
    (b.left < px ∧ px < b.right ∧ b.bottom < py ∧ py < b.top)

/-! ## Loop invariants that hold for every input -/

theorem colLoop_cells (x_start x_stop num_cols x_step_size : HPDF_REAL)
    (objects : List PlannerBase) (y : HPDF_REAL) (row_num : ℕ) :
    ∀ (fuel : ℕ) (x : HPDF_REAL) (col_num object_index first_entry_offset : ℕ),
      x = x_start + (col_num : HPDF_REAL) * x_step_size →
      ∀ c ∈ (colLoop x_stop num_cols x_step_size objects y row_num fuel x col_num
              object_index first_entry_offset).1,
        c.row_num = row_num ∧ c.y = y ∧
          c.x = x_start + (c.col_num : HPDF_REAL) * x_step_size ∧
          (c.col_num : HPDF_REAL) < num_cols ∧ c.x < x_stop ∧
          objects[c.object_index]? = some c.object := by
  intro fuel
  induction fuel with
  | zero => intro x col_num oi feo _ c hc; simp [colLoop] at hc
  | succ fuel ih =>
    intro x col_num oi feo hx c hc
    have hx1 : x + x_step_size = x_start + ((col_num + 1 : ℕ) : HPDF_REAL) * x_step_size := by
      rw [hx]; push_cast; ring
    unfold colLoop at hc
    split_ifs at hc with h h0
    · simp only [List.mem_cons] at hc
      rcases hc with hc | hc
      · subst hc
        refine ⟨rfl, rfl, hx, h.2.2, h.1, ?_⟩
        simp [List.getElem?_eq_getElem h.2.1]
      · exact ih _ _ _ _ hx1 c hc
    · exact ih _ _ _ _ hx1 c hc
    · simp at hc

theorem rowLoop_cells (x_start y_start x_stop y_stop num_cols x_step_size y_step_size
    num_rows : HPDF_REAL) (objects : List PlannerBase) :
    ∀ (fuel : ℕ) (y : HPDF_REAL) (row_num object_index first_entry_offset : ℕ),
      y = y_start + (row_num : HPDF_REAL) * y_step_size →
      ∀ c ∈ rowLoop x_start x_stop y_stop num_cols x_step_size y_step_size num_rows objects
              fuel y row_num object_index first_entry_offset,
        c.x = x_start + (c.col_num : HPDF_REAL) * x_step_size ∧
          c.y = y_start + (c.row_num : HPDF_REAL) * y_step_size ∧
          (c.col_num : HPDF_REAL) < num_cols ∧ (c.row_num : HPDF_REAL) < num_rows ∧
          c.x < x_stop ∧ c.y < y_stop ∧
          objects[c.object_index]? = some c.object := by
  intro fuel
  induction fuel with
  | zero => intro y r oi feo _ c hc; simp [rowLoop] at hc
  | succ fuel ih =>
    intro y r oi feo hy c hc
    unfold rowLoop at hc
    split_ifs at hc with h
    · simp only [List.mem_append] at hc
      rcases hc with hc | hc
      · obtain ⟨h1, h2, h3, h4, h5, h6⟩ :=
          colLoop_cells x_start x_stop num_cols x_step_size objects y r _ x_start 0 oi feo
            (by simp) c hc
        refine ⟨h3, ?_, h4, ?_, h5, ?_, h6⟩
        · rw [h2, h1, hy]
        · rw [h1]; exact h.2
        · rw [h2]; exact h.1
      · refine ih _ _ _ _ ?_ c hc
        rw [hy]; push_cast; ring
    · simp at hc

/-! ## The loops end before their fuel does -/

theorem not_lt_of_ceil_le (a : HPDF_REAL) (i : ℕ) (h : ⌈a⌉₊ ≤ i) : ¬ (i : HPDF_REAL) < a := by
  intro hlt
  have := Nat.lt_ceil.mpr hlt
  omega

theorem colLoop_fuel_enough (x_stop num_cols x_step_size : HPDF_REAL)
    (objects : List PlannerBase) (y : HPDF_REAL) (row_num : ℕ) :
    ∀ (fuel₁ fuel₂ : ℕ) (x : HPDF_REAL) (col_num object_index first_entry_offset : ℕ),
      first_entry_offset + (objects.length - object_index) ≤ fuel₁ →
      first_entry_offset + (objects.length - object_index) ≤ fuel₂ →
      colLoop x_stop num_cols x_step_size objects y row_num fuel₁ x col_num object_index
          first_entry_offset =
        colLoop x_stop num_cols x_step_size objects y row_num fuel₂ x col_num object_index
          first_entry_offset := by
  intro fuel₁
  induction fuel₁ with
  | zero =>
    intro fuel₂ x c oi feo h₁ _
    cases fuel₂ with
    | zero => rfl
    | succ fuel₂ =>
      unfold colLoop
      rw [dif_neg (by intro h; omega)]
  | succ fuel₁ ih =>
    intro fuel₂ x c oi feo h₁ h₂
    cases fuel₂ with
    | zero =>
      unfold colLoop
      rw [dif_neg (by intro h; omega)]
    | succ fuel₂ =>
      unfold colLoop
      split_ifs with h h0
      · simp only
        rw [ih fuel₂ (x + x_step_size) (c + 1) (oi + 1) feo (by omega) (by omega)]
      · exact ih fuel₂ (x + x_step_size) (c + 1) oi (feo - 1) (by omega) (by omega)
      · rfl

theorem rowLoop_fuel_enough (x_start x_stop y_stop num_cols x_step_size y_step_size
    num_rows : HPDF_REAL) (objects : List PlannerBase) :
    ∀ (fuel₁ fuel₂ : ℕ) (y : HPDF_REAL) (row_num object_index first_entry_offset : ℕ),
      ⌈num_rows⌉₊ - row_num ≤ fuel₁ → ⌈num_rows⌉₊ - row_num ≤ fuel₂ →
      rowLoop x_start x_stop y_stop num_cols x_step_size y_step_size num_rows objects fuel₁ y
          row_num object_index first_entry_offset =
        rowLoop x_start x_stop y_stop num_cols x_step_size y_step_size num_rows objects fuel₂
          y row_num object_index first_entry_offset := by
  intro fuel₁
  induction fuel₁ with
  | zero =>
    intro fuel₂ y r oi feo h₁ _
    cases fuel₂ with
    | zero => rfl
    | succ fuel₂ =>
      unfold rowLoop
      rw [if_neg (fun h => not_lt_of_ceil_le num_rows r (by omega) h.2)]
  | succ fuel₁ ih =>
    intro fuel₂ y r oi feo h₁ h₂
    cases fuel₂ with
    | zero =>
      unfold rowLoop
      rw [if_neg (fun h => not_lt_of_ceil_le num_rows r (by omega) h.2)]
    | succ fuel₂ =>
      unfold rowLoop
      split_ifs with h
      · simp only
        rw [ih fuel₂ (y + y_step_size) (r + 1) _ _ (by omega) (by omega)]
      · rfl

theorem rowLines_fuel_enough (x_start y_start x_stop ys num_rows page_height : HPDF_REAL) :
    ∀ (fuel₁ fuel₂ row_num : ℕ),
      ⌈num_rows⌉₊ - row_num ≤ fuel₁ → ⌈num_rows⌉₊ - row_num ≤ fuel₂ →
      rowLines x_start y_start x_stop ys num_rows page_height fuel₁ row_num =
        rowLines x_start y_start x_stop ys num_rows page_height fuel₂ row_num := by
  intro fuel₁
  induction fuel₁ with
  | zero =>
    intro fuel₂ r h₁ _
    cases fuel₂ with
    | zero => rfl
    | succ fuel₂ =>
      unfold rowLines
      rw [if_neg (not_lt_of_ceil_le num_rows r (by omega))]
  | succ fuel₁ ih =>
    intro fuel₂ r h₁ h₂
    cases fuel₂ with
    | zero =>
      unfold rowLines
      rw [if_neg (not_lt_of_ceil_le num_rows r (by omega))]
    | succ fuel₂ =>
      unfold rowLines
      split_ifs with h
      · simp only
        rw [ih fuel₂ (r + 1) (by omega) (by omega)]
      · rfl

theorem colLines_fuel_enough (x_start y_start y_stop xs num_cols page_height : HPDF_REAL) :
    ∀ (fuel₁ fuel₂ col_num : ℕ),
      ⌈num_cols⌉₊ - col_num ≤ fuel₁ → ⌈num_cols⌉₊ - col_num ≤ fuel₂ →
      colLines x_start y_start y_stop xs num_cols page_height fuel₁ col_num =
        colLines x_start y_start y_stop xs num_cols page_height fuel₂ col_num := by
  intro fuel₁
  induction fuel₁ with
  | zero =>
    intro fuel₂ c h₁ _
    cases fuel₂ with
    | zero => rfl
    | succ fuel₂ =>
      unfold colLines
      rw [if_neg (not_lt_of_ceil_le num_cols c (by omega))]
  | succ fuel₁ ih =>
    intro fuel₂ c h₁ h₂
    cases fuel₂ with
    | zero =>
      unfold colLines
      rw [if_neg (not_lt_of_ceil_le num_cols c (by omega))]
    | succ fuel₂ =>
      unfold colLines
      split_ifs with h
      · simp only
        rw [ih fuel₂ (c + 1) (by omega) (by omega)]
      · rfl

/-! ## The walk on a grid with natural row and column counts -/

theorem step_lt_stop_iff (start stop : HPDF_REAL) (count i : ℕ) (hcount : 0 < count)
    (h : start < stop) :
    start + (i : HPDF_REAL) * ((stop - start) / count) < stop ↔ i < count := by
  have hW : 0 < stop - start := sub_pos.mpr h
  have hc : (0 : HPDF_REAL) < count := by exact_mod_cast hcount
  have e : start + (i : HPDF_REAL) * ((stop - start) / count) < stop ↔
      (i : HPDF_REAL) * (stop - start) / count < stop - start := by
    rw [mul_div_assoc]; constructor <;> intro h1 <;> linarith
  rw [e, div_lt_iff₀ hc, mul_comm, mul_lt_mul_left hW]
  exact Nat.cast_lt

theorem rowMajorCells_append (x_start y_start xs ys : HPDF_REAL) (cols offset : ℕ) :
    ∀ (l₁ l₂ : List PlannerBase) (i : ℕ),
      rowMajorCells x_start y_start xs ys cols offset i (l₁ ++ l₂) =
        rowMajorCells x_start y_start xs ys cols offset i l₁ ++
          rowMajorCells x_start y_start xs ys cols offset (i + l₁.length) l₂ := by
  intro l₁
  induction l₁ with
  | nil => intro l₂ i; simp [rowMajorCells]
  | cons a l ih =>
    intro l₂ i
    have e : i + 1 + l.length = i + (l.length + 1) := by omega
    show rowMajorCells x_start y_start xs ys cols offset i (a :: (l ++ l₂)) = _
    simp only [rowMajorCells, List.length_cons, ih, e, List.cons_append]

theorem take_drop_succ (objects : List PlannerBase) (oi k : ℕ) (h : oi < objects.length) :
    (objects.drop oi).take (k + 1) =
      objects.get ⟨oi, h⟩ :: (objects.drop (oi + 1)).take k := by
  have e : objects.drop oi = objects[oi] :: objects.drop (oi + 1) :=
    List.drop_eq_getElem_cons h
  rw [e, List.take_succ_cons]
  rfl

theorem take_drop_add (objects : List PlannerBase) (oi k₁ k₂ : ℕ) :
    (objects.drop oi).take (k₁ + k₂) =
      (objects.drop oi).take k₁ ++ (objects.drop (oi + k₁)).take k₂ := by
  rw [List.take_add, List.drop_drop]

theorem colLoop_rowMajor (x_start x_stop y_start ys y : HPDF_REAL) (cols : ℕ)
    (objects : List PlannerBase) (offset r : ℕ) (hcols : 0 < cols) (hx : x_start < x_stop)
    (hy : y = y_start + (r : HPDF_REAL) * ys) :
    ∀ (fuel : ℕ) (x : HPDF_REAL) (c oi feo : ℕ),
      x = x_start + (c : HPDF_REAL) * ((x_stop - x_start) / cols) →
      c ≤ cols → oi ≤ objects.length → feo + (objects.length - oi) ≤ fuel →
      (oi < objects.length → r * cols + c + feo = offset + oi) →
      ∃ k feo1,
        colLoop x_stop cols ((x_stop - x_start) / cols) objects y r fuel x c oi feo =
          (rowMajorCells x_start y_start ((x_stop - x_start) / cols) ys cols offset oi
            ((objects.drop oi).take k), oi + k, feo1) ∧
        oi + k ≤ objects.length ∧
        (oi + k < objects.length → (r + 1) * cols + feo1 = offset + (oi + k)) := by
  intro fuel
  induction fuel with
  | zero =>
    intro x c oi feo _ _ hoi hfuel _
    refine ⟨0, feo, by simp [colLoop, rowMajorCells], by simpa using hoi, ?_⟩
    intro h; omega
  | succ fuel ih =>
    intro x c oi feo hxc hc hoi hfuel hinv
    have hx1 : x + (x_stop - x_start) / cols =
        x_start + ((c + 1 : ℕ) : HPDF_REAL) * ((x_stop - x_start) / cols) := by
      rw [hxc]; push_cast; ring
    have hcond : x < x_stop ↔ c < cols := by
      rw [hxc]; exact step_lt_stop_iff x_start x_stop cols c hcols hx
    unfold colLoop
    split_ifs with h h0
    · -- place objects[oi] in the current cell
      have hclt : c < cols := hcond.mp h.1
      have hk := hinv h.2.1
      obtain ⟨k, feo1, e, hle, hfin⟩ :=
        ih (x + (x_stop - x_start) / cols) (c + 1) (oi + 1) feo hx1 hclt h.2.1
          (by omega) (by intro _; omega)
      refine ⟨k + 1, feo1, ?_, by omega, ?_⟩
      · rw [e, take_drop_succ objects oi k h.2.1]
        simp only [rowMajorCells, cellAt]
        have hdiv : (offset + oi) / cols = r := by
          rw [← hk, h0, Nat.add_zero, Nat.add_comm, Nat.add_mul_div_right _ _ hcols,
            Nat.div_eq_of_lt hclt, Nat.zero_add]
        have hmod : (offset + oi) % cols = c := by
          rw [← hk, h0, Nat.add_zero, Nat.add_comm, Nat.add_mul_mod_self_right,
            Nat.mod_eq_of_lt hclt]
        rw [hdiv, hmod, ← hxc, ← hy]
        have : oi + (k + 1) = oi + 1 + k := by omega
        rw [this]
      · intro hlt
        have := hfin (by omega)
        omega
    · -- skip the cell
      have hclt : c < cols := hcond.mp h.1
      have hk := hinv h.2.1
      obtain ⟨k, feo1, e, hle, hfin⟩ :=
        ih (x + (x_stop - x_start) / cols) (c + 1) oi (feo - 1) hx1 hclt hoi
          (by omega) (by intro _; omega)
      exact ⟨k, feo1, e, hle, hfin⟩
    · refine ⟨0, feo, by simp [rowMajorCells], by simpa using hoi, ?_⟩
      intro hlt
      have hlt1 : oi < objects.length := by omega
      have hk := hinv hlt1
      have hnc : ¬ c < cols := by
        intro hc1
        exact h ⟨hcond.mpr hc1, hlt1, by exact_mod_cast hc1⟩
      have : c = cols := by omega
      subst this
      rw [Nat.add_zero, Nat.add_mul, Nat.one_mul]
      omega

theorem rowLoop_rowMajor (x_start x_stop y_start y_stop : HPDF_REAL) (rows cols : ℕ)
    (objects : List PlannerBase) (offset : ℕ) (hrows : 0 < rows) (hcols : 0 < cols)
    (hx : x_start < x_stop) (hy : y_start < y_stop) :
    ∀ (fuel : ℕ) (y : HPDF_REAL) (r oi feo : ℕ),
      y = y_start + (r : HPDF_REAL) * ((y_stop - y_start) / rows) →
      r ≤ rows → rows - r ≤ fuel → oi ≤ objects.length →
      (oi < objects.length → r * cols + feo = offset + oi) →
      ∃ k,
        rowLoop x_start x_stop y_stop cols ((x_stop - x_start) / cols)
            ((y_stop - y_start) / rows) rows objects fuel y r oi feo =
          rowMajorCells x_start y_start ((x_stop - x_start) / cols)
            ((y_stop - y_start) / rows) cols offset oi ((objects.drop oi).take k) ∧
        oi + k ≤ objects.length ∧
        (oi + k < objects.length → rows * cols ≤ offset + (oi + k)) := by
  intro fuel
  induction fuel with
  | zero =>
    intro y r oi feo _ hr hfuel hoi hinv
    refine ⟨0, by simp [rowLoop, rowMajorCells], by simpa using hoi, ?_⟩
    intro hlt
    have hk := hinv (by omega)
    have : r = rows := by omega
    subst this
    omega
  | succ fuel ih =>
    intro y r oi feo hyr hr hfuel hoi hinv
    have hcond : y < y_stop ↔ r < rows := by
      rw [hyr]; exact step_lt_stop_iff y_start y_stop rows r hrows hy
    unfold rowLoop
    split_ifs with h
    · have hrlt : r < rows := hcond.mp h.1
      obtain ⟨k₁, feo1, e₁, hle₁, hfin₁⟩ :=
        colLoop_rowMajor x_start x_stop y_start ((y_stop - y_start) / rows) y cols objects
          offset r hcols hx hyr (feo + (objects.length - oi)) x_start 0 oi feo (by simp)
          (Nat.zero_le _) hoi le_rfl (by intro hlt; have := hinv hlt; omega)
      obtain ⟨k₂, e₂, hle₂, hfin₂⟩ :=
        ih (y + (y_stop - y_start) / rows) (r + 1) (oi + k₁) feo1
          (by rw [hyr]; push_cast; ring) hrlt (by omega) hle₁ hfin₁
      refine ⟨k₁ + k₂, ?_, by omega, ?_⟩
      · simp only [e₁, e₂]
        rw [take_drop_add, rowMajorCells_append]
        have hlen : ((objects.drop oi).take k₁).length = k₁ := by
          simp [List.length_take, List.length_drop]; omega
        rw [hlen]
      · intro hlt
        have := hfin₂ (by omega)
        omega
    · refine ⟨0, by simp [rowMajorCells], by simpa using hoi, ?_⟩
      intro hlt
      have hlt1 : oi < objects.length := by omega
      have hk := hinv hlt1
      have hnr : ¬ r < rows := by
        intro hr1
        exact h ⟨hcond.mpr hr1, by exact_mod_cast hr1⟩
      have : r = rows := by omega
      subst this
      omega

theorem gridWalk_rowMajor (x_start y_start x_stop y_stop : HPDF_REAL) (rows cols : ℕ)
    (objects : List PlannerBase) (offset : ℕ) (hrows : 0 < rows) (hcols : 0 < cols)
    (hx : x_start < x_stop) (hy : y_start < y_stop)
    (hcap : offset + objects.length ≤ rows * cols) :
    gridWalk x_start y_start x_stop y_stop rows cols objects offset =
      rowMajorCells x_start y_start ((x_stop - x_start) / cols) ((y_stop - y_start) / rows)
        cols offset 0 objects := by
  obtain ⟨k, e, hle, hfin⟩ :=
    rowLoop_rowMajor x_start x_stop y_start y_stop rows cols objects offset hrows hcols hx hy
      rows y_start 0 0 offset (by simp) (Nat.zero_le _) (by omega) (Nat.zero_le _)
      (by intro _; omega)
  have hk : k = objects.length := by
    by_contra hne
    have := hfin (by omega)
    omega
  subst hk
  unfold gridWalk
  simp only [Nat.ceil_natCast]
  rw [e]
  simp

/-! ## The guard and the shape of an accepted run -/

theorem CreateGrid_rejected (bk : Backend)
    (x_start y_start x_stop y_stop num_rows num_cols : HPDF_REAL)
    (objects : List PlannerBase) (create_annotations : Bool) (first_entry_offset : ℕ)
    (create_thumbnail : Bool) (page_type object_type : PlannerTypes)
    (page_height padding : HPDF_REAL)
    (h : capacityExceeded num_rows num_cols objects first_entry_offset) :
    CreateGrid bk x_start y_start x_stop y_stop num_rows num_cols objects create_annotations
        first_entry_offset create_thumbnail page_type object_type page_height padding =
      ⟨some ⟨num_rows, num_cols, first_entry_offset, objects.length⟩, []⟩ := by
  unfold CreateGrid
  rw [if_pos h]

theorem CreateGrid_accepted (bk : Backend)
    (x_start y_start x_stop y_stop num_rows num_cols : HPDF_REAL)
    (objects : List PlannerBase) (create_annotations : Bool) (first_entry_offset : ℕ)
    (create_thumbnail : Bool) (page_type object_type : PlannerTypes)
    (page_height padding : HPDF_REAL)
    (h : ¬ capacityExceeded num_rows num_cols objects first_entry_offset) :
    CreateGrid bk x_start y_start x_stop y_stop num_rows num_cols objects create_annotations
        first_entry_offset create_thumbnail page_type object_type page_height padding =
      ⟨none,
        [PageOp.SetFontAndSize "Helvetica" 25]
        ++ (gridCells x_start y_start x_stop y_stop num_rows num_cols objects
              first_entry_offset).flatMap
            (placeOps bk ((x_stop - x_start) / num_cols) ((y_stop - y_start) / num_rows)
              create_annotations create_thumbnail page_type object_type page_height padding)
        ++ rowLines x_start y_start x_stop ((y_stop - y_start) / num_rows) num_rows
            page_height ⌈num_rows⌉₊ 0
        ++ colLines x_start y_start y_stop ((x_stop - x_start) / num_cols) num_cols
            page_height ⌈num_cols⌉₊ 1⟩ := by
  unfold CreateGrid gridCells
  rw [if_neg h, if_neg h]

theorem size_t_add_le (a b : ℕ) : size_t_add a b ≤ a + b :=
  Nat.mod_le _ _

theorem not_capacityExceeded_of_le (rows cols : ℕ) (objects : List PlannerBase)
    (offset : ℕ) (hcap : offset + objects.length ≤ rows * cols) :
    ¬ capacityExceeded rows cols objects offset := by
  unfold capacityExceeded
  have h : size_t_add offset objects.length ≤ rows * cols :=
    le_trans (size_t_add_le _ _) hcap
  have h' : ((size_t_add offset objects.length : ℕ) : HPDF_REAL) ≤ (rows : HPDF_REAL) * cols := by
    exact_mod_cast h
  exact not_lt.mpr h'

theorem gridCells_rowMajor (x_start y_start x_stop y_stop : HPDF_REAL) (rows cols : ℕ)
    (objects : List PlannerBase) (offset : ℕ) (hrows : 0 < rows) (hcols : 0 < cols)
    (hx : x_start < x_stop) (hy : y_start < y_stop)
    (hcap : offset + objects.length ≤ rows * cols) :
    gridCells x_start y_start x_stop y_stop rows cols objects offset =
      rowMajorCells x_start y_start ((x_stop - x_start) / cols) ((y_stop - y_start) / rows)
        cols offset 0 objects := by
  unfold gridCells
  rw [if_neg (not_capacityExceeded_of_le rows cols objects offset hcap)]
  exact gridWalk_rowMajor x_start y_start x_stop y_stop rows cols objects offset hrows hcols
    hx hy hcap

theorem rowMajorCells_index (x_start y_start xs ys : HPDF_REAL) (cols offset : ℕ) :
    ∀ (l : List PlannerBase) (i : ℕ),
      (rowMajorCells x_start y_start xs ys cols offset i l).map
          (fun c => (c.row_num, c.col_num, c.object_index)) =
        (List.range' i l.length).map
          (fun j => ((offset + j) / cols, (offset + j) % cols, j)) := by
  intro l
  induction l with
  | nil => intro i; simp [rowMajorCells]
  | cons a l ih =>
    intro i
    simp only [rowMajorCells, List.map_cons, List.length_cons, List.range'_succ, ih, cellAt]

theorem rowMajorCells_object (x_start y_start xs ys : HPDF_REAL) (cols offset : ℕ) :
    ∀ (l : List PlannerBase) (i : ℕ),
      (rowMajorCells x_start y_start xs ys cols offset i l).map (fun c => c.object) = l := by
  intro l
  induction l with
  | nil => intro i; simp [rowMajorCells]
  | cons a l ih =>
    intro i
    simp only [rowMajorCells, List.map_cons, ih, cellAt]

theorem filter_placeOps_placement (bk : Backend) (xs ys : HPDF_REAL) (ca ct : Bool)
    (pt ot : PlannerTypes) (ph padding : HPDF_REAL) (c : GridCell) :
    (placeOps bk xs ys ca ct pt ot ph padding c).filter isPlacementOp =
      placeOps bk xs ys ca ct pt ot ph padding c := by
  unfold placeOps
  cases ca <;> cases ct <;> simp [isPlacementOp]

theorem filter_placeOps_line (bk : Backend) (xs ys : HPDF_REAL) (ca ct : Bool)
    (pt ot : PlannerTypes) (ph padding : HPDF_REAL) (c : GridCell) :
    (placeOps bk xs ys ca ct pt ot ph padding c).filter isLineOp = [] := by
  unfold placeOps
  cases ca <;> cases ct <;> simp [isLineOp]

theorem filter_flatMap_placeOps_placement (bk : Backend) (xs ys : HPDF_REAL) (ca ct : Bool)
    (pt ot : PlannerTypes) (ph padding : HPDF_REAL) (cells : List GridCell) :
    (cells.flatMap (placeOps bk xs ys ca ct pt ot ph padding)).filter isPlacementOp =
      cells.flatMap (placeOps bk xs ys ca ct pt ot ph padding) := by
  induction cells with
  | nil => simp
  | cons c cs ih =>
    simp only [List.flatMap_cons, List.filter_append, ih, filter_placeOps_placement]

theorem filter_flatMap_placeOps_line (bk : Backend) (xs ys : HPDF_REAL) (ca ct : Bool)
    (pt ot : PlannerTypes) (ph padding : HPDF_REAL) (cells : List GridCell) :
    (cells.flatMap (placeOps bk xs ys ca ct pt ot ph padding)).filter isLineOp = [] := by
  induction cells with
  | nil => simp
  | cons c cs ih =>
    simp only [List.flatMap_cons, List.filter_append, ih, filter_placeOps_line,
      List.append_nil]

theorem rowLines_range (x_start y_start x_stop ys page_height : HPDF_REAL) (rows : ℕ) :
    ∀ (fuel r : ℕ), rows - r ≤ fuel →
      rowLines x_start y_start x_stop ys rows page_height fuel r =
        (List.range' r (rows - r)).flatMap (fun row_num =>
          [PageOp.SetLineWidth 2,
           PageOp.MoveTo x_start (page_height - (y_start + (row_num : HPDF_REAL) * ys)),
           PageOp.LineTo x_stop (page_height - (y_start + (row_num : HPDF_REAL) * ys)),
           PageOp.Stroke]) := by
  intro fuel
  induction fuel with
  | zero =>
    intro r h
    have : rows - r = 0 := by omega
    simp [rowLines, this]
  | succ fuel ih =>
    intro r h
    unfold rowLines
    split_ifs with hlt
    · have hlt1 : r < rows := by exact_mod_cast hlt
      have e : rows - r = (rows - (r + 1)) + 1 := by omega
      rw [ih (r + 1) (by omega), e, List.range'_succ]
      simp
    · have hge : ¬ r < rows := by
        intro h1; exact hlt (by exact_mod_cast h1)
      have : rows - r = 0 := by omega
      simp [this]

theorem colLines_range (x_start y_start y_stop xs page_height : HPDF_REAL) (cols : ℕ) :
    ∀ (fuel c : ℕ), cols - c ≤ fuel →
      colLines x_start y_start y_stop xs cols page_height fuel c =
        (List.range' c (cols - c)).flatMap (fun col_num =>
          [PageOp.SetLineWidth 1,
           PageOp.MoveTo (x_start + (col_num : HPDF_REAL) * xs) (page_height - y_start),
           PageOp.LineTo (x_start + (col_num : HPDF_REAL) * xs) (page_height - y_stop),
           PageOp.Stroke]) := by
  intro fuel
  induction fuel with
  | zero =>
    intro c h
    have : cols - c = 0 := by omega
    simp [colLines, this]
  | succ fuel ih =>
    intro c h
    unfold colLines
    split_ifs with hlt
    · have hlt1 : c < cols := by exact_mod_cast hlt
      have e : cols - c = (cols - (c + 1)) + 1 := by omega
      rw [ih (c + 1) (by omega), e, List.range'_succ]
      simp [mul_comm]
    · have hge : ¬ c < cols := by
        intro h1; exact hlt (by exact_mod_cast h1)
      have : cols - c = 0 := by omega
      simp [this]

theorem filter_line_flatMap_self (f : ℕ → List PageOp) (hf : ∀ i, ∀ op ∈ f i, isLineOp op = true)
    (l : List ℕ) : (l.flatMap f).filter isLineOp = l.flatMap f := by
  rw [List.filter_eq_self]
  intro op hop
  obtain ⟨i, _, hi⟩ := List.mem_flatMap.mp hop
  exact hf i op hi

theorem filter_placement_flatMap_nil (f : ℕ → List PageOp)
    (hf : ∀ i, ∀ op ∈ f i, isPlacementOp op = false) (l : List ℕ) :
    (l.flatMap f).filter isPlacementOp = [] := by
  rw [List.filter_eq_nil_iff]
  intro op hop
  obtain ⟨i, _, hi⟩ := List.mem_flatMap.mp hop
  simp [hf i op hi]

theorem CreateGrid_placementOps (bk : Backend)
    (x_start y_start x_stop y_stop num_rows num_cols : HPDF_REAL)
    (objects : List PlannerBase) (create_annotations : Bool) (first_entry_offset : ℕ)
    (create_thumbnail : Bool) (page_type object_type : PlannerTypes)
    (page_height padding : HPDF_REAL) (rows cols : ℕ) (hr : num_rows = rows)
    (hc : num_cols = cols) :
    (CreateGrid bk x_start y_start x_stop y_stop num_rows num_cols objects create_annotations
        first_entry_offset create_thumbnail page_type object_type page_height
        padding).page.filter isPlacementOp =
      (gridCells x_start y_start x_stop y_stop num_rows num_cols objects
          first_entry_offset).flatMap
        (placeOps bk ((x_stop - x_start) / num_cols) ((y_stop - y_start) / num_rows)
          create_annotations create_thumbnail page_type object_type page_height padding) := by
  subst hr hc
  by_cases h : capacityExceeded rows cols objects first_entry_offset
  · rw [CreateGrid_rejected _ _ _ _ _ _ _ _ _ _ _ _ _ _ _ h]
    simp [gridCells, h]
  · rw [CreateGrid_accepted _ _ _ _ _ _ _ _ _ _ _ _ _ _ _ h]
    simp only [Nat.ceil_natCast]
    rw [rowLines_range _ _ _ _ _ rows rows 0 (by omega),
      colLines_range _ _ _ _ _ cols cols 1 (by omega)]
    simp only [List.filter_append, filter_flatMap_placeOps_placement]
    rw [filter_placement_flatMap_nil _ (by
        intro i op hop; simp at hop; rcases hop with h | h | h | h <;> subst h <;> rfl),
      filter_placement_flatMap_nil _ (by
        intro i op hop; simp at hop; rcases hop with h | h | h | h <;> subst h <;> rfl)]
    simp [isPlacementOp]

/-! ## Claims about `CreateGrid` -/

/-- C1, evaluated on the code.  The guard adds `first_entry_offset` and `objects.size()`
as `size_t`.  With `first_entry_offset = 2 ^ 64 - 1` and one child on a 1 by 1 grid the true
sum exceeds the single cell, the `size_t` sum is `0`, and the call is not rejected: nothing
is reported and the row separator is drawn. -/
theorem CreateGrid_capacity_check_wraps :
    ((18446744073709551615 + [sampleNode 0].length : ℕ) : HPDF_REAL) > 1 * 1 ∧
    size_t_add 18446744073709551615 [sampleNode 0].length = 0 ∧
    CreateGrid sampleBackend 0 0 100 100 1 1 [sampleNode 0] true 18446744073709551615 false
        0 0 800 10 =
      ⟨none,
        [PageOp.SetFontAndSize "Helvetica" 25, PageOp.SetLineWidth 2, PageOp.MoveTo 0 800,
         PageOp.LineTo 100 800, PageOp.Stroke]⟩ := by
  refine ⟨by norm_num, by norm_num [size_t_add, SIZE_T_RANGE], ?_⟩
  rw [CreateGrid_accepted _ _ _ _ _ _ _ _ _ _ _ _ _ _ _
    (by norm_num [capacityExceeded, size_t_add, SIZE_T_RANGE])]
  simp [gridCells, gridWalk, capacityExceeded, size_t_add, SIZE_T_RANGE, rowLoop, colLoop,
    rowLines, colLines]

/-- Whenever the `size_t` sum does not wrap, a call whose offset plus child count exceeds
`num_rows * num_cols` is rejected: the diagnostic is written and no call reaches the page. -/
theorem CreateGrid_rejects_when_no_wrap (bk : Backend)
    (x_start y_start x_stop y_stop num_rows num_cols : HPDF_REAL)
    (objects : List PlannerBase) (create_annotations : Bool) (first_entry_offset : ℕ)
    (create_thumbnail : Bool) (page_type object_type : PlannerTypes)
    (page_height padding : HPDF_REAL)
    (hfit : first_entry_offset + objects.length < SIZE_T_RANGE)
    (h : ((first_entry_offset + objects.length : ℕ) : HPDF_REAL) > num_rows * num_cols) :
    CreateGrid bk x_start y_start x_stop y_stop num_rows num_cols objects create_annotations
        first_entry_offset create_thumbnail page_type object_type page_height padding =
      ⟨some ⟨num_rows, num_cols, first_entry_offset, objects.length⟩, []⟩ := by
  apply CreateGrid_rejected
  unfold capacityExceeded size_t_add
  rw [Nat.mod_eq_of_lt hfit]
  exact h

/-- C2.  On a grid of `rows ≥ 1` by `cols ≥ 1` cells over a region with
`x_start < x_stop` and `y_start < y_stop`, with `offset + n ≤ rows * cols` for the `n`
children: the placements are exactly the `n` children in list order, child `i` in row
`(offset + i) / cols` and column `(offset + i) % cols`; no placement falls in a cell of
row-major index below `offset` or from `offset + n` on; and the text, link and thumbnail
calls on the page are those of these placements, in this order. -/
theorem CreateGrid_places_row_major (bk : Backend) (x_start y_start x_stop y_stop : HPDF_REAL)
    (rows cols : ℕ) (objects : List PlannerBase) (create_annotations : Bool) (offset : ℕ)
    (create_thumbnail : Bool) (page_type object_type : PlannerTypes)
    (page_height padding : HPDF_REAL)
    (hrows : 1 ≤ rows) (hcols : 1 ≤ cols) (hx : x_start < x_stop) (hy : y_start < y_stop)
    (hcap : offset + objects.length ≤ rows * cols) :
    (gridCells x_start y_start x_stop y_stop rows cols objects offset).map
        (fun c => (c.row_num, c.col_num, c.object_index)) =
      (List.range objects.length).map
        (fun i => ((offset + i) / cols, (offset + i) % cols, i)) ∧
    (gridCells x_start y_start x_stop y_stop rows cols objects offset).map
        (fun c => c.object) = objects ∧
    (∀ k, k < offset ∨ offset + objects.length ≤ k →
      ∀ c ∈ gridCells x_start y_start x_stop y_stop rows cols objects offset,
        c.row_num * cols + c.col_num ≠ k) ∧
    (CreateGrid bk x_start y_start x_stop y_stop rows cols objects create_annotations offset
        create_thumbnail page_type object_type page_height padding).page.filter
        isPlacementOp =
      (gridCells x_start y_start x_stop y_stop rows cols objects offset).flatMap
        (placeOps bk ((x_stop - x_start) / cols) ((y_stop - y_start) / rows)
          create_annotations create_thumbnail page_type object_type page_height padding) := by
  have e := gridCells_rowMajor x_start y_start x_stop y_stop rows cols objects offset hrows
    hcols hx hy hcap
  have hidx := rowMajorCells_index x_start y_start ((x_stop - x_start) / cols)
    ((y_stop - y_start) / rows) cols offset objects 0
  rw [← List.range_eq_range'] at hidx
  refine ⟨by rw [e]; exact hidx, by rw [e]; exact rowMajorCells_object _ _ _ _ _ _ _ _, ?_,
    CreateGrid_placementOps _ _ _ _ _ _ _ _ _ _ _ _ _ _ _ rows cols rfl rfl⟩
  intro k hk c hc heq
  rw [e] at hc
  have hmem : (c.row_num, c.col_num, c.object_index) ∈
      (List.range objects.length).map
        (fun i => ((offset + i) / cols, (offset + i) % cols, i)) := by
    rw [← hidx]
    exact List.mem_map.mpr ⟨c, hc, rfl⟩
  obtain ⟨i, hi, hieq⟩ := List.mem_map.mp hmem
  have hi' : i < objects.length := List.mem_range.mp hi
  simp only [Prod.mk.injEq] at hieq
  have hdm : (offset + i) / cols * cols + (offset + i) % cols = offset + i :=
    Nat.div_add_mod' _ _
  rw [hieq.1, hieq.2.1] at hdm
  omega

/-- C3.  For every region, every row and column count and every padding, the padded
sub-rectangle of a cell `CreateGrid` places a child in, at row `r` and column `c`, is
`left = x_start + c * xStep + padding`, `top = y_start + r * yStep + padding`,
`right = x_start + (c + 1) * xStep - padding`, `bottom = y_start + (r + 1) * yStep - padding`
with `xStep = (x_stop - x_start) / num_cols` and `yStep = (y_stop - y_start) / num_rows`. -/
theorem CreateGrid_padded_cell (x_start y_start x_stop y_stop num_rows num_cols : HPDF_REAL)
    (objects : List PlannerBase) (first_entry_offset : ℕ) (padding : HPDF_REAL)
    (c : GridCell)
    (hc : c ∈ gridCells x_start y_start x_stop y_stop num_rows num_cols objects
      first_entry_offset) :
    paddedCell ((x_stop - x_start) / num_cols) ((y_stop - y_start) / num_rows) padding c =
      ⟨x_start + (c.col_num : HPDF_REAL) * ((x_stop - x_start) / num_cols) + padding,
       y_start + (c.row_num : HPDF_REAL) * ((y_stop - y_start) / num_rows) + padding,
       x_start + ((c.col_num : HPDF_REAL) + 1) * ((x_stop - x_start) / num_cols) - padding,
       y_start + ((c.row_num : HPDF_REAL) + 1) * ((y_stop - y_start) / num_rows) - padding⟩ := by
  unfold gridCells at hc
  split_ifs at hc with hcap
  · simp at hc
  · unfold gridWalk at hc
    obtain ⟨h1, h2, _⟩ :=
      rowLoop_cells x_start y_start x_stop y_stop num_cols ((x_stop - x_start) / num_cols)
        ((y_stop - y_start) / num_rows) num_rows objects _ y_start 0 0 first_entry_offset
        (by simp) c hc
    unfold paddedCell
    rw [h1, h2]
    congr 1 <;> ring

/-- C2 at the example of the specification: five children in a grid of 2 rows and 3 columns
with offset 0 go to the cells (0,0), (0,1), (0,2), (1,0), (1,1); the cell (1,2), of row-major
index 5, stays empty. -/
theorem CreateGrid_places_row_major_witness :
    (gridCells 0 0 400 300 ((2 : ℕ) : HPDF_REAL) ((3 : ℕ) : HPDF_REAL)
        (List.map sampleNode [0, 1, 2, 3, 4]) 0).map
        (fun c => (c.row_num, c.col_num, c.object_index)) =
      [(0, 0, 0), (0, 1, 1), (0, 2, 2), (1, 0, 3), (1, 1, 4)] ∧
    ∀ c ∈ gridCells 0 0 400 300 ((2 : ℕ) : HPDF_REAL) ((3 : ℕ) : HPDF_REAL)
        (List.map sampleNode [0, 1, 2, 3, 4]) 0,
      c.row_num * 3 + c.col_num ≠ 5 :=
  have h := CreateGrid_places_row_major sampleBackend 0 0 400 300 2 3
    (List.map sampleNode [0, 1, 2, 3, 4]) true 0 false 0 0 800 10 (by decide) (by decide)
    (by norm_num) (by norm_num) (by decide)
  ⟨h.1, h.2.2.1 5 (Or.inr (by decide))⟩

/-- C3 at the example of the specification: region (0,0)-(400,300), 3 rows, 2 columns and
padding 10 give the padded rectangle (10,10)-(190,90) for the cell at row 0, column 0. -/
theorem CreateGrid_padded_cell_witness :
    (⟨0, 0, 0, 0, 0, sampleNode 0⟩ : GridCell) ∈ gridCells 0 0 400 300 3 2 [sampleNode 0] 0 ∧
    paddedCell ((400 - 0) / 2) ((300 - 0) / 3) 10 ⟨0, 0, 0, 0, 0, sampleNode 0⟩ =
      ⟨10, 10, 190, 90⟩ :=
  have hc : (⟨0, 0, 0, 0, 0, sampleNode 0⟩ : GridCell) ∈
      gridCells 0 0 400 300 3 2 [sampleNode 0] 0 := by
    norm_num [gridCells, gridWalk, capacityExceeded, size_t_add, SIZE_T_RANGE, rowLoop, colLoop]
  ⟨hc, (CreateGrid_padded_cell 0 0 400 300 3 2 [sampleNode 0] 0 10 _ hc).trans
    (by norm_num)⟩

/-- C4.  For every call that passes the capacity check, with natural row and column
counts: the separator calls on the page are `rows` horizontal lines of width 2, the `r`-th
from `(x_start, page_height - (y_start + r * yStep))` to `(x_stop, same y)`, followed by
`cols - 1` vertical lines of width 1, for `c = 1 .. cols - 1`, from
`(x_start + c * xStep, page_height - y_start)` to `(same x, page_height - y_stop)`.  The
right-hand side does not mention the child list, the offset or the flags. -/
theorem CreateGrid_separator_lines (bk : Backend) (x_start y_start x_stop y_stop : HPDF_REAL)
    (rows cols : ℕ) (objects : List PlannerBase) (create_annotations : Bool)
    (first_entry_offset : ℕ) (create_thumbnail : Bool) (page_type object_type : PlannerTypes)
    (page_height padding : HPDF_REAL)
    (hpass : ¬ capacityExceeded rows cols objects first_entry_offset) :
    (CreateGrid bk x_start y_start x_stop y_stop rows cols objects create_annotations
        first_entry_offset create_thumbnail page_type object_type page_height
        padding).page.filter isLineOp =
      (List.range rows).flatMap (fun r =>
        [PageOp.SetLineWidth 2,
         PageOp.MoveTo x_start
           (page_height - (y_start + (r : HPDF_REAL) * ((y_stop - y_start) / rows))),
         PageOp.LineTo x_stop
           (page_height - (y_start + (r : HPDF_REAL) * ((y_stop - y_start) / rows))),
         PageOp.Stroke])
      ++ (List.range' 1 (cols - 1)).flatMap (fun c =>
        [PageOp.SetLineWidth 1,
         PageOp.MoveTo (x_start + (c : HPDF_REAL) * ((x_stop - x_start) / cols))
           (page_height - y_start),
         PageOp.LineTo (x_start + (c : HPDF_REAL) * ((x_stop - x_start) / cols))
           (page_height - y_stop),
         PageOp.Stroke]) := by
  rw [CreateGrid_accepted _ _ _ _ _ _ _ _ _ _ _ _ _ _ _ hpass]
  simp only [Nat.ceil_natCast]
  rw [rowLines_range _ _ _ _ _ rows rows 0 (by omega),
    colLines_range _ _ _ _ _ cols cols 1 (by omega)]
  simp only [List.filter_append, filter_flatMap_placeOps_line]
  rw [filter_line_flatMap_self _ (by
      intro i op hop; simp at hop; rcases hop with h | h | h | h <;> subst h <;> rfl),
    filter_line_flatMap_self _ (by
      intro i op hop; simp at hop; rcases hop with h | h | h | h <;> subst h <;> rfl)]
  simp [isLineOp, List.range_eq_range']

/-- C4 at the example of the specification: a grid of 2 rows and 3 columns with an empty
child list and offset 5 gets its 2 horizontal and 2 vertical lines. -/
theorem CreateGrid_separator_lines_witness :
    ¬ capacityExceeded ((2 : ℕ) : HPDF_REAL) ((3 : ℕ) : HPDF_REAL) [] 5 ∧
    (CreateGrid sampleBackend 0 0 300 200 ((2 : ℕ) : HPDF_REAL) ((3 : ℕ) : HPDF_REAL) [] true
        5 false 0 0 800 10).page.filter isLineOp =
      [PageOp.SetLineWidth 2, PageOp.MoveTo 0 800, PageOp.LineTo 300 800, PageOp.Stroke,
       PageOp.SetLineWidth 2, PageOp.MoveTo 0 700, PageOp.LineTo 300 700, PageOp.Stroke,
       PageOp.SetLineWidth 1, PageOp.MoveTo 100 800, PageOp.LineTo 100 600, PageOp.Stroke,
       PageOp.SetLineWidth 1, PageOp.MoveTo 200 800, PageOp.LineTo 200 600, PageOp.Stroke] :=
  have hpass : ¬ capacityExceeded ((2 : ℕ) : HPDF_REAL) ((3 : ℕ) : HPDF_REAL) [] 5 := by
    norm_num [capacityExceeded, size_t_add, SIZE_T_RANGE]
  ⟨hpass, (CreateGrid_separator_lines sampleBackend 0 0 300 200 2 3 [] true 5 false 0 0 800 10
    hpass).trans (by
      simp [List.range_succ, List.range'_succ]
      norm_num)⟩

theorem linkAnnots_append (a b : List PageOp) :
    linkAnnots (a ++ b) = linkAnnots a ++ linkAnnots b := by
  induction a with
  | nil => simp [linkAnnots]
  | cons op ops ih => cases op <;> simp [linkAnnots, ih]

theorem linkAnnots_rowLines (x_start y_start x_stop ys num_rows page_height : HPDF_REAL) :
    ∀ (fuel r : ℕ),
      linkAnnots (rowLines x_start y_start x_stop ys num_rows page_height fuel r) = [] := by
  intro fuel
  induction fuel with
  | zero => intro r; simp [rowLines, linkAnnots]
  | succ fuel ih =>
    intro r
    unfold rowLines
    split_ifs
    · simp [linkAnnots, ih]
    · simp [linkAnnots]

theorem linkAnnots_colLines (x_start y_start y_stop xs num_cols page_height : HPDF_REAL) :
    ∀ (fuel c : ℕ),
      linkAnnots (colLines x_start y_start y_stop xs num_cols page_height fuel c) = [] := by
  intro fuel
  induction fuel with
  | zero => intro c; simp [colLines, linkAnnots]
  | succ fuel ih =>
    intro c
    unfold colLines
    split_ifs
    · simp [linkAnnots, ih]
    · simp [linkAnnots]

theorem linkAnnots_flatMap_placeOps (bk : Backend) (xs ys : HPDF_REAL) (ca ct : Bool)
    (pt ot : PlannerTypes) (ph padding : HPDF_REAL) (cells : List GridCell) :
    linkAnnots (cells.flatMap (placeOps bk xs ys ca ct pt ot ph padding)) =
      if ca = true then
        cells.map (fun c =>
          ((⟨(paddedCell xs ys padding c).x_pad_start,
             if ct = true then ph - (paddedCell xs ys padding c).y_pad_start - 50
             else ph - (paddedCell xs ys padding c).y_pad_end,
             (paddedCell xs ys padding c).x_pad_end,
             ph - (paddedCell xs ys padding c).y_pad_start⟩ : HPDF_Rect),
           c.object.GetPage))
      else [] := by
  induction cells with
  | nil => simp [linkAnnots]
  | cons c cs ih =>
    rw [List.flatMap_cons, linkAnnots_append, ih]
    cases ca <;> cases ct <;>
      simp [placeOps, linkAnnots, HPDF_Page_CreateDestination]

/-- C5.  The link annotations `CreateGrid` puts on the page: with `create_annotations` set,
exactly one per placed child, in placement order, targeting that child's own page
(`GetPage` of `objects[object_index]`), with the horizontal span of the padded cell, upper
edge `page_height - y_pad_start`, and lower edge `page_height - y_pad_start - 50` when
`create_thumbnail` is set and `page_height - y_pad_end` otherwise; with
`create_annotations` false, none. -/
theorem CreateGrid_link_annotations (bk : Backend)
    (x_start y_start x_stop y_stop num_rows num_cols : HPDF_REAL)
    (objects : List PlannerBase) (create_annotations : Bool) (first_entry_offset : ℕ)
    (create_thumbnail : Bool) (page_type object_type : PlannerTypes)
    (page_height padding : HPDF_REAL) :
    linkAnnots (CreateGrid bk x_start y_start x_stop y_stop num_rows num_cols objects
        create_annotations first_entry_offset create_thumbnail page_type object_type
        page_height padding).page =
      (if create_annotations = true then
        (gridCells x_start y_start x_stop y_stop num_rows num_cols objects
            first_entry_offset).map (fun c =>
          ((⟨(paddedCell ((x_stop - x_start) / num_cols) ((y_stop - y_start) / num_rows)
                padding c).x_pad_start,
             if create_thumbnail = true then
               page_height - (paddedCell ((x_stop - x_start) / num_cols)
                 ((y_stop - y_start) / num_rows) padding c).y_pad_start - 50
             else
               page_height - (paddedCell ((x_stop - x_start) / num_cols)
                 ((y_stop - y_start) / num_rows) padding c).y_pad_end,
             (paddedCell ((x_stop - x_start) / num_cols) ((y_stop - y_start) / num_rows)
                padding c).x_pad_end,
             page_height - (paddedCell ((x_stop - x_start) / num_cols)
                ((y_stop - y_start) / num_rows) padding c).y_pad_start⟩ : HPDF_Rect),
           c.object.GetPage))
      else []) ∧
    (gridCells x_start y_start x_stop y_stop num_rows num_cols objects
        first_entry_offset).map (fun c => objects[c.object_index]?) =
      (gridCells x_start y_start x_stop y_stop num_rows num_cols objects
        first_entry_offset).map (fun c => some c.object) := by
  constructor
  · by_cases h : capacityExceeded num_rows num_cols objects first_entry_offset
    · rw [CreateGrid_rejected _ _ _ _ _ _ _ _ _ _ _ _ _ _ _ h]
      simp [gridCells, h, linkAnnots]
    · rw [CreateGrid_accepted _ _ _ _ _ _ _ _ _ _ _ _ _ _ _ h]
      simp only [linkAnnots_append, linkAnnots_rowLines, linkAnnots_colLines,
        linkAnnots_flatMap_placeOps, List.append_nil]
      simp [linkAnnots]
  · apply List.map_congr_left
    intro c hc
    unfold gridCells at hc
    split_ifs at hc with hcap
    · simp at hc
    · unfold gridWalk at hc
      exact (rowLoop_cells x_start y_start x_stop y_stop num_cols
        ((x_stop - x_start) / num_cols) ((y_stop - y_start) / num_rows) num_rows objects _
        y_start 0 0 first_entry_offset (by simp) c hc).2.2.2.2.2.2

theorem placeOps_rowMajorCells_shift (bk : Backend) (x_start y_start xs ys : HPDF_REAL)
    (ca ct : Bool) (pt ot : PlannerTypes) (ph padding : HPDF_REAL) (cols offset m : ℕ) :
    ∀ (l : List PlannerBase) (i : ℕ),
      (rowMajorCells x_start y_start xs ys cols offset (i + m) l).flatMap
          (placeOps bk xs ys ca ct pt ot ph padding) =
        (rowMajorCells x_start y_start xs ys cols (offset + m) i l).flatMap
          (placeOps bk xs ys ca ct pt ot ph padding) := by
  intro l
  induction l with
  | nil => intro i; simp [rowMajorCells]
  | cons a l ih =>
    intro i
    have e1 : i + m + 1 = i + 1 + m := by omega
    have e2 : offset + (i + m) = offset + m + i := by omega
    simp only [rowMajorCells, List.flatMap_cons, e1, e2, ih]
    rfl

/-- C6.  Pagination by windows composes.  On a grid of `rows ≥ 1` by `cols ≥ 1` cells over
a region with `x_start < x_stop` and `y_start < y_stop`, for fixed padding and flags and
`offset + |a| + |b| ≤ rows * cols`: the child-placement calls (text position and label,
link rectangle and target, thumbnail call) of `CreateGrid` with offset `offset` and children
`a ++ b` are those with offset `offset` and children `a`, followed by those with offset
`offset + |a|` and children `b`. -/
theorem CreateGrid_windows_compose (bk : Backend) (x_start y_start x_stop y_stop : HPDF_REAL)
    (rows cols : ℕ) (a b : List PlannerBase) (create_annotations : Bool) (offset : ℕ)
    (create_thumbnail : Bool) (page_type object_type : PlannerTypes)
    (page_height padding : HPDF_REAL)
    (hrows : 1 ≤ rows) (hcols : 1 ≤ cols) (hx : x_start < x_stop) (hy : y_start < y_stop)
    (hcap : offset + a.length + b.length ≤ rows * cols) :
    (CreateGrid bk x_start y_start x_stop y_stop rows cols (a ++ b) create_annotations offset
        create_thumbnail page_type object_type page_height padding).page.filter
        isPlacementOp =
      (CreateGrid bk x_start y_start x_stop y_stop rows cols a create_annotations offset
        create_thumbnail page_type object_type page_height padding).page.filter
        isPlacementOp
      ++ (CreateGrid bk x_start y_start x_stop y_stop rows cols b create_annotations
        (offset + a.length) create_thumbnail page_type object_type page_height
        padding).page.filter isPlacementOp := by
  rw [CreateGrid_placementOps _ _ _ _ _ _ _ _ _ _ _ _ _ _ _ rows cols rfl rfl,
    CreateGrid_placementOps _ _ _ _ _ _ _ _ _ _ _ _ _ _ _ rows cols rfl rfl,
    CreateGrid_placementOps _ _ _ _ _ _ _ _ _ _ _ _ _ _ _ rows cols rfl rfl,
    gridCells_rowMajor _ _ _ _ rows cols (a ++ b) offset hrows hcols hx hy
      (by rw [List.length_append]; omega),
    gridCells_rowMajor _ _ _ _ rows cols a offset hrows hcols hx hy (by omega),
    gridCells_rowMajor _ _ _ _ rows cols b (offset + a.length) hrows hcols hx hy (by omega),
    rowMajorCells_append, List.flatMap_append, placeOps_rowMajorCells_shift]

/-- C6 on a grid of 2 rows and 3 columns: two children from offset 1 followed by two
children from offset 3 give the placement calls of the four children from offset 1. -/
theorem CreateGrid_windows_compose_witness :
    (1 : ℕ) ≤ 2 ∧ (1 : ℕ) ≤ 3 ∧ (0 : HPDF_REAL) < 300 ∧ (0 : HPDF_REAL) < 200 ∧
    1 + [sampleNode 0, sampleNode 1].length + [sampleNode 2, sampleNode 3].length ≤ 2 * 3 ∧
    (CreateGrid sampleBackend 0 0 300 200 ((2 : ℕ) : HPDF_REAL) ((3 : ℕ) : HPDF_REAL)
        ([sampleNode 0, sampleNode 1] ++ [sampleNode 2, sampleNode 3]) true 1 true 0 0 800
        10).page.filter isPlacementOp =
      (CreateGrid sampleBackend 0 0 300 200 ((2 : ℕ) : HPDF_REAL) ((3 : ℕ) : HPDF_REAL)
        [sampleNode 0, sampleNode 1] true 1 true 0 0 800 10).page.filter isPlacementOp
      ++ (CreateGrid sampleBackend 0 0 300 200 ((2 : ℕ) : HPDF_REAL) ((3 : ℕ) : HPDF_REAL)
        [sampleNode 2, sampleNode 3] true (1 + [sampleNode 0, sampleNode 1].length) true 0 0
        800 10).page.filter isPlacementOp :=
  ⟨by decide, by decide, by norm_num, by norm_num, by decide,
    CreateGrid_windows_compose sampleBackend 0 0 300 200 2 3 [sampleNode 0, sampleNode 1]
      [sampleNode 2, sampleNode 3] true 1 true 0 0 800 10 (by decide) (by decide)
      (by norm_num) (by norm_num) (by decide)⟩

/-! ## Claims about navigation and the notes section -/

/-- C7.  `CreateTitle` followed by `AddNavigation` puts on the page exactly one link
annotation per neighbour that is set among parent, left and right, in this order, each
targeting that neighbour's page; `CreateTitle` shows the title and nothing else, and
`AddNavigation` shows `<` exactly when left is set and `>` exactly when right is set,
and nothing else. -/
theorem navigation_links_and_glyphs (bk : Backend) (self : PlannerBase) :
    (linkAnnots (self.CreateTitle bk ++ self.AddNavigation bk)).map Prod.snd =
      self._parent.toList ++ self._left.toList ++ self._right.toList ∧
    shownTexts (self.CreateTitle bk) = [self._page_title] ∧
    shownTexts (self.AddNavigation bk) =
      (if self._left.isSome then ["<"] else []) ++ (if self._right.isSome then [">"] else []) := by
  obtain ⟨id, pct, page, font, ph, pw, title, gs, tfs, nfs, parent, left, right⟩ := self
  cases parent <;> cases left <;> cases right <;>
    simp [PlannerBase.CreateTitle, PlannerBase.AddNavigation, linkAnnots, shownTexts,
      HPDF_Page_CreateDestination]

/-- A node with only `parent` set gets one link annotation, to the parent, and shows the
title and no arrow glyph. -/
theorem navigation_parent_only (bk : Backend) (self : PlannerBase) (p : HPDF_Page)
    (hp : self._parent = some p) (hl : self._left = none) (hr : self._right = none) :
    (linkAnnots (self.CreateTitle bk ++ self.AddNavigation bk)).map Prod.snd = [p] ∧
    shownTexts (self.CreateTitle bk ++ self.AddNavigation bk) = [self._page_title] := by
  obtain ⟨id, pct, page, font, ph, pw, title, gs, tfs, nfs, parent, left, right⟩ := self
  simp only at hp hl hr
  subst hp hl hr
  simp [PlannerBase.CreateTitle, PlannerBase.AddNavigation, linkAnnots, shownTexts,
    HPDF_Page_CreateDestination]

/-- A node with no neighbour set gets the title text and no link annotation. -/
theorem navigation_no_neighbour (bk : Backend) (self : PlannerBase)
    (hp : self._parent = none) (hl : self._left = none) (hr : self._right = none) :
    linkAnnots (self.CreateTitle bk ++ self.AddNavigation bk) = [] ∧
    shownTexts (self.CreateTitle bk ++ self.AddNavigation bk) = [self._page_title] := by
  obtain ⟨id, pct, page, font, ph, pw, title, gs, tfs, nfs, parent, left, right⟩ := self
  simp only at hp hl hr
  subst hp hl hr
  simp [PlannerBase.CreateTitle, PlannerBase.AddNavigation, linkAnnots, shownTexts]

/-- C8.  For a node with both left and right set and a text-width measure that, at the
title font and size `AddNavigation` selects, is never negative and gives `<` at most 200
units: `AddNavigation` emits two link rectangles, the
left arrow's with right edge `titleX - 100 + width("<")` and the right arrow's with left
edge `titleX + width(title) + 100`, and the first edge is not to the right of the second. -/
theorem AddNavigation_arrows_disjoint (bk : Backend) (self : PlannerBase)
    (l r : HPDF_Page) (hl : self._left = some l) (hr : self._right = some r)
    (hnonneg : ∀ text,
      0 ≤ bk.HPDF_Page_TextWidth self._notes_font self._page_title_font_size text)
    (hleft : bk.HPDF_Page_TextWidth self._notes_font self._page_title_font_size "<" ≤ 200) :
    ∃ rect_left rect_right : HPDF_Rect,
      linkAnnots (self.AddNavigation bk) = [(rect_left, l), (rect_right, r)] ∧
      rect_left.right =
        bk.GetCenteredTextXPosition self._notes_font self._page_title_font_size
            self._page_title 0 self._page_width - 100 +
          bk.HPDF_Page_TextWidth self._notes_font self._page_title_font_size "<" ∧
      rect_right.left =
        bk.GetCenteredTextXPosition self._notes_font self._page_title_font_size
            self._page_title 0 self._page_width +
          bk.HPDF_Page_TextWidth self._notes_font self._page_title_font_size
            self._page_title + 100 ∧
      rect_left.right ≤ rect_right.left := by
  obtain ⟨id, pct, page, font, ph, pw, title, gs, tfs, nfs, parent, left, right⟩ := self
  simp only at hl hr hleft hnonneg
  subst hl hr
  refine ⟨_, _, by
    simp only [PlannerBase.AddNavigation, linkAnnots, HPDF_Page_CreateDestination,
      List.cons_append, List.nil_append]
    rfl, rfl, rfl, ?_⟩
  have h0 := hnonneg title
  simp only
  linarith

/-- C8 on a node with both arrows, under the sample text metric. -/
theorem AddNavigation_arrows_disjoint_witness :
    ∃ rect_left rect_right : HPDF_Rect,
      linkAnnots ((sampleLinked none (some 7) (some 9)).AddNavigation sampleBackend) =
        [(rect_left, 7), (rect_right, 9)] ∧
      rect_left.right =
        sampleBackend.GetCenteredTextXPosition "Helvetica" 45 "Base" 0 600 - 100 +
          sampleBackend.HPDF_Page_TextWidth "Helvetica" 45 "<" ∧
      rect_right.left =
        sampleBackend.GetCenteredTextXPosition "Helvetica" 45 "Base" 0 600 +
          sampleBackend.HPDF_Page_TextWidth "Helvetica" 45 "Base" + 100 ∧
      rect_left.right ≤ rect_right.left :=
  AddNavigation_arrows_disjoint sampleBackend (sampleLinked none (some 7) (some 9)) 7 9 rfl rfl
    (by
      intro text
      show (0 : HPDF_REAL) ≤ (text.length : HPDF_REAL) * 45 / 2
      positivity)
    (by
      show ((1 : ℕ) : HPDF_REAL) * 45 / 2 ≤ 200
      norm_num)

/-- C9, refuted on the code.  With the ratio set to 0 the divider is drawn on the left page
edge, from `(0, 0)` to `(0, 735)`, and with the ratio set to 1 on the right page edge, from
`(600, 0)` to `(600, 735)`; the run consists of drawing calls only. -/
theorem notes_ratio_edge_is_drawn :
    ((sampleNode 0).SetNotesSectionPercentage 0).CreateNotesSection sampleBackend =
      [PageOp.SetFontAndSize "Helvetica" 35, PageOp.SetLineWidth 1,
       PageOp.MoveTo 0 0, PageOp.LineTo 0 735, PageOp.Stroke,
       PageOp.BeginText, PageOp.MoveTextPos (-175 / 4) 710, PageOp.ShowText "Notes",
       PageOp.EndText,
       PageOp.SetLineWidth 1, PageOp.MoveTo 120 0, PageOp.LineTo 120 800, PageOp.Stroke] ∧
    ((sampleNode 0).SetNotesSectionPercentage 1).CreateNotesSection sampleBackend =
      [PageOp.SetFontAndSize "Helvetica" 35, PageOp.SetLineWidth 1,
       PageOp.MoveTo 600 0, PageOp.LineTo 600 735, PageOp.Stroke,
       PageOp.BeginText, PageOp.MoveTextPos (1025 / 4) 710, PageOp.ShowText "Notes",
       PageOp.EndText,
       PageOp.SetLineWidth 1, PageOp.MoveTo 120 0, PageOp.LineTo 120 800, PageOp.Stroke] := by
  have h5 : "Notes".length = 5 := by decide
  constructor <;>
    norm_num [PlannerBase.CreateNotesSection, PlannerBase.SetNotesSectionPercentage,
      sampleNode, sampleBackend, h5]

/-- C9 as the code has it.  `SetNotesSectionPercentage` stores any ratio, and
`CreateNotesSection` then draws, for every ratio, the divider from
`(page_width * ratio, 0)` to `(page_width * ratio, page_height - title_font_size - 20)`,
the centred "Notes" label and the rule at `x = 120`; no ratio is rejected. -/
theorem notes_divider_for_every_ratio (bk : Backend) (self : PlannerBase)
    (ratio : HPDF_REAL) :
    (self.SetNotesSectionPercentage ratio)._note_section_percentage = ratio ∧
    (self.SetNotesSectionPercentage ratio).CreateNotesSection bk =
      [PageOp.SetFontAndSize self._notes_font self._note_title_font_size,
       PageOp.SetLineWidth 1,
       PageOp.MoveTo (self._page_width * ratio) 0,
       PageOp.LineTo (self._page_width * ratio)
         (self._page_height - self._page_title_font_size - 20),
       PageOp.Stroke,
       PageOp.BeginText,
       PageOp.MoveTextPos
         (bk.GetCenteredTextXPosition self._notes_font self._note_title_font_size "Notes" 0
           (self._page_width * ratio))
         (self._page_height - self._page_title_font_size - self._note_title_font_size - 10),
       PageOp.ShowText "Notes",
       PageOp.EndText,
       PageOp.SetLineWidth 1,
       PageOp.MoveTo 120 0,
       PageOp.LineTo 120 self._page_height,
       PageOp.Stroke] :=
  ⟨rfl, rfl⟩

/-! ## What a caller of `CreateGrid` gets back -/

/-- C10, refuted on the code.  A call on a grid of no rows and no columns with no children
passes the guard and only selects the grid font, a call with two children on a grid of one
cell is rejected and makes no call on the page, and both hand the caller the same result:
no return value and nothing drawn. -/
theorem CreateGrid_result_hides_rejection :
    ¬ capacityExceeded 0 0 [] 0 ∧
    capacityExceeded 1 1 [sampleNode 0, sampleNode 1] 0 ∧
    (CreateGrid sampleBackend 0 0 100 100 0 0 [] true 0 false 0 0 800 10).page =
      [PageOp.SetFontAndSize "Helvetica" 25] ∧
    (CreateGrid sampleBackend 0 0 100 100 1 1 [sampleNode 0, sampleNode 1] true 0 false
      0 0 800 10).page = [] ∧
    callerResult (CreateGrid sampleBackend 0 0 100 100 0 0 [] true 0 false 0 0 800 10) =
      callerResult
        (CreateGrid sampleBackend 0 0 100 100 1 1 [sampleNode 0, sampleNode 1] true 0 false
          0 0 800 10) := by
  have h1 : ¬ capacityExceeded 0 0 [] 0 := by
    norm_num [capacityExceeded, size_t_add, SIZE_T_RANGE]
  have h2 : capacityExceeded 1 1 [sampleNode 0, sampleNode 1] 0 := by
    norm_num [capacityExceeded, size_t_add, SIZE_T_RANGE]
  rw [CreateGrid_accepted _ _ _ _ _ _ _ _ _ _ _ _ _ _ _ h1,
    CreateGrid_rejected _ _ _ _ _ _ _ _ _ _ _ _ _ _ _ h2]
  refine ⟨h1, h2, ?_, rfl, ?_⟩ <;>
  simp [callerResult, gridCells, gridWalk, capacityExceeded, size_t_add, SIZE_T_RANGE,
    rowLoop, rowLines, colLines, isPlacementOp, isLineOp]

/-- C10 as the code has it.  `CreateGrid` returns nothing.  A rejected call writes the
diagnostic (row and column counts, offset, child count) to standard output and makes no call
on the page; an accepted call writes nothing to standard output, and on a grid with a
natural number `rows ≥ 1` of rows it draws something, so that there the drawing does tell the
two apart. -/
theorem CreateGrid_outcome (bk : Backend) (x_start y_start x_stop y_stop : HPDF_REAL)
    (rows : ℕ) (num_cols : HPDF_REAL) (objects : List PlannerBase) (create_annotations : Bool)
    (first_entry_offset : ℕ) (create_thumbnail : Bool) (page_type object_type : PlannerTypes)
    (page_height padding : HPDF_REAL) (hrows : 1 ≤ rows) :
    (capacityExceeded rows num_cols objects first_entry_offset →
      CreateGrid bk x_start y_start x_stop y_stop rows num_cols objects create_annotations
          first_entry_offset create_thumbnail page_type object_type page_height padding =
        ⟨some ⟨rows, num_cols, first_entry_offset, objects.length⟩, []⟩ ∧
      callerResult (CreateGrid bk x_start y_start x_stop y_stop rows num_cols objects
          create_annotations first_entry_offset create_thumbnail page_type object_type
          page_height padding) = ((), [])) ∧
    (¬ capacityExceeded rows num_cols objects first_entry_offset →
      (CreateGrid bk x_start y_start x_stop y_stop rows num_cols objects create_annotations
          first_entry_offset create_thumbnail page_type object_type page_height
          padding).cout = none ∧
      callerResult (CreateGrid bk x_start y_start x_stop y_stop rows num_cols objects
          create_annotations first_entry_offset create_thumbnail page_type object_type
          page_height padding) ≠ ((), [])) := by
  constructor
  · intro h
    rw [CreateGrid_rejected _ _ _ _ _ _ _ _ _ _ _ _ _ _ _ h]
    simp [callerResult]
  · intro h
    rw [CreateGrid_accepted _ _ _ _ _ _ _ _ _ _ _ _ _ _ _ h]
    refine ⟨rfl, ?_⟩
    obtain ⟨n, rfl⟩ : ∃ n, rows = n + 1 := ⟨rows - 1, by omega⟩
    intro hres
    have hnil := (Prod.mk.injEq _ _ _ _).mp hres |>.2
    rw [List.filter_eq_nil_iff] at hnil
    have hmem : PageOp.SetLineWidth 2 ∈
        rowLines x_start y_start x_stop ((y_stop - y_start) / ((n + 1 : ℕ) : HPDF_REAL))
          ((n + 1 : ℕ) : HPDF_REAL) page_height ⌈((n + 1 : ℕ) : HPDF_REAL)⌉₊ 0 := by
      rw [Nat.ceil_natCast]
      unfold rowLines
      rw [if_pos (by push_cast; positivity)]
      simp
    have := hnil (PageOp.SetLineWidth 2) (by
      simp only [List.mem_append]
      exact Or.inl (Or.inr hmem))
    simp [isLineOp, isPlacementOp] at this

/-- C10 as the code has it, on a grid of one cell: two children are rejected with the
diagnostic and nothing drawn, one child is accepted and something is drawn. -/
theorem CreateGrid_outcome_witness :
    (CreateGrid sampleBackend 0 0 100 100 ((1 : ℕ) : HPDF_REAL) 1 [sampleNode 0, sampleNode 1]
        true 0 false 0 0 800 10 =
      ⟨some ⟨((1 : ℕ) : HPDF_REAL), 1, 0, 2⟩, []⟩ ∧
     callerResult (CreateGrid sampleBackend 0 0 100 100 ((1 : ℕ) : HPDF_REAL) 1
        [sampleNode 0, sampleNode 1] true 0 false 0 0 800 10) = ((), [])) ∧
    ((CreateGrid sampleBackend 0 0 100 100 ((1 : ℕ) : HPDF_REAL) 1 [sampleNode 0] true 0 false
        0 0 800 10).cout = none ∧
     callerResult (CreateGrid sampleBackend 0 0 100 100 ((1 : ℕ) : HPDF_REAL) 1 [sampleNode 0]
        true 0 false 0 0 800 10) ≠ ((), [])) :=
  ⟨(CreateGrid_outcome sampleBackend 0 0 100 100 1 1 [sampleNode 0, sampleNode 1] true 0 false
      0 0 800 10 (by decide)).1 (by norm_num [capacityExceeded, size_t_add, SIZE_T_RANGE]),
   (CreateGrid_outcome sampleBackend 0 0 100 100 1 1 [sampleNode 0] true 0 false
      0 0 800 10 (by decide)).2 (by norm_num [capacityExceeded, size_t_add, SIZE_T_RANGE])⟩

/-! ## The walk against the reference walk of the specification -/

theorem referenceRow_done (x_start y_start xs ys : HPDF_REAL) (objects : List PlannerBase)
    (row : ℕ) :
    ∀ (todo col skip oi : ℕ), objects.length ≤ oi →
      (referenceRow x_start y_start xs ys objects row todo col skip oi).1 = [] ∧
        (referenceRow x_start y_start xs ys objects row todo col skip oi).2.2 = oi := by
  intro todo
  induction todo with
  | zero => intro col skip oi _; exact ⟨rfl, rfl⟩
  | succ todo ih =>
    intro col skip oi h
    unfold referenceRow
    split_ifs with h1 h2
    · exact ih _ _ _ h
    · omega
    · exact ih _ _ _ h

theorem colLoop_referenceRow (x_start x_stop y_start ys y : HPDF_REAL) (cols : ℕ)
    (objects : List PlannerBase) (r : ℕ) (hcols : 0 < cols) (hx : x_start < x_stop)
    (hy : y = y_start + (r : HPDF_REAL) * ys) :
    ∀ (todo fuel : ℕ) (x : HPDF_REAL) (c oi feo skip : ℕ),
      c + todo = cols → x = x_start + (c : HPDF_REAL) * ((x_stop - x_start) / cols) →
      feo + (objects.length - oi) ≤ fuel → (oi < objects.length → feo = skip) →
      (colLoop x_stop cols ((x_stop - x_start) / cols) objects y r fuel x c oi feo).1 =
          (referenceRow x_start y_start ((x_stop - x_start) / cols) ys objects r todo c skip
            oi).1 ∧
        (colLoop x_stop cols ((x_stop - x_start) / cols) objects y r fuel x c oi feo).2.1 =
          (referenceRow x_start y_start ((x_stop - x_start) / cols) ys objects r todo c skip
            oi).2.2 ∧
        ((colLoop x_stop cols ((x_stop - x_start) / cols) objects y r fuel x c oi feo).2.1 <
            objects.length →
          (colLoop x_stop cols ((x_stop - x_start) / cols) objects y r fuel x c oi feo).2.2 =
            (referenceRow x_start y_start ((x_stop - x_start) / cols) ys objects r todo c
              skip oi).2.1) := by
  intro todo
  induction todo with
  | zero =>
    intro fuel x c oi feo skip hc hxc _ hst
    have hnc : ¬ ((c : HPDF_REAL) < (cols : HPDF_REAL)) := by
      intro h
      have : c < cols := by exact_mod_cast h
      omega
    have e : colLoop x_stop cols ((x_stop - x_start) / cols) objects y r fuel x c oi feo =
        ([], oi, feo) := by
      cases fuel with
      | zero => rfl
      | succ fuel =>
        unfold colLoop
        rw [dif_neg (fun h => hnc h.2.2)]
    rw [e]
    exact ⟨rfl, rfl, hst⟩
  | succ todo ih =>
    intro fuel x c oi feo skip hc hxc hfuel hst
    have hclt : c < cols := by omega
    have hxlt : x < x_stop := by
      rw [hxc]; exact (step_lt_stop_iff x_start x_stop cols c hcols hx).mpr hclt
    have hx1 : x + (x_stop - x_start) / cols =
        x_start + ((c + 1 : ℕ) : HPDF_REAL) * ((x_stop - x_start) / cols) := by
      rw [hxc]; push_cast; ring
    by_cases hoi : oi < objects.length
    · have hfs := hst hoi
      subst hfs
      obtain ⟨fuel, rfl⟩ : ∃ f, fuel = f + 1 := ⟨fuel - 1, by omega⟩
      have hcond : x < x_stop ∧ oi < objects.length ∧ (c : HPDF_REAL) < (cols : HPDF_REAL) :=
        ⟨hxlt, hoi, by exact_mod_cast hclt⟩
      unfold colLoop referenceRow
      rw [dif_pos hcond]
      by_cases h0 : feo = 0
      · subst h0
        rw [if_pos rfl, if_neg (lt_irrefl 0), dif_pos hoi]
        obtain ⟨i1, i2, i3⟩ := ih fuel (x + (x_stop - x_start) / cols) (c + 1) (oi + 1) 0 0
          (by omega) hx1 (by omega) (fun _ => rfl)
        refine ⟨?_, i2, i3⟩
        simp only
        rw [i1]
        congr 1
        rw [GridCell.mk.injEq]
        exact ⟨rfl, rfl, hxc, hy, rfl, rfl⟩
      · rw [if_neg h0, if_pos (Nat.pos_of_ne_zero h0)]
        exact ih fuel (x + (x_stop - x_start) / cols) (c + 1) oi (feo - 1) (feo - 1)
          (by omega) hx1 (by omega) (fun _ => rfl)
    · have hge : objects.length ≤ oi := by omega
      have e : colLoop x_stop cols ((x_stop - x_start) / cols) objects y r fuel x c oi feo =
          ([], oi, feo) := by
        cases fuel with
        | zero => rfl
        | succ fuel =>
          unfold colLoop
          rw [dif_neg (fun h => hoi h.2.1)]
      obtain ⟨d1, d2⟩ := referenceRow_done x_start y_start ((x_stop - x_start) / cols) ys
        objects r (todo + 1) c skip oi hge
      rw [e, d1, d2]
      exact ⟨rfl, rfl, fun h => absurd h hoi⟩

theorem referenceRows_done (x_start y_start xs ys : HPDF_REAL) (cols : ℕ)
    (objects : List PlannerBase) :
    ∀ (todo row skip oi : ℕ), objects.length ≤ oi →
      referenceRows x_start y_start xs ys cols objects todo row skip oi = [] := by
  intro todo
  induction todo with
  | zero => intro row skip oi _; rfl
  | succ todo ih =>
    intro row skip oi h
    unfold referenceRows
    obtain ⟨d1, d2⟩ := referenceRow_done x_start y_start xs ys objects row cols 0 skip oi h
    simp only [d1, List.nil_append]
    exact ih _ _ _ (by rw [d2]; exact h)

theorem rowLoop_referenceRows (x_start x_stop y_start y_stop : HPDF_REAL) (rows cols : ℕ)
    (objects : List PlannerBase) (hrows : 0 < rows) (hcols : 0 < cols)
    (hx : x_start < x_stop) (hy : y_start < y_stop) :
    ∀ (todo fuel : ℕ) (y : HPDF_REAL) (r oi feo skip : ℕ),
      r + todo = rows → y = y_start + (r : HPDF_REAL) * ((y_stop - y_start) / rows) →
      todo ≤ fuel → (oi < objects.length → feo = skip) →
      rowLoop x_start x_stop y_stop cols ((x_stop - x_start) / cols)
          ((y_stop - y_start) / rows) rows objects fuel y r oi feo =
        referenceRows x_start y_start ((x_stop - x_start) / cols)
          ((y_stop - y_start) / rows) cols objects todo r skip oi := by
  intro todo
  induction todo with
  | zero =>
    intro fuel y r oi feo skip hr _ _ _
    have hnr : ¬ ((r : HPDF_REAL) < (rows : HPDF_REAL)) := by
      intro h
      have : r < rows := by exact_mod_cast h
      omega
    cases fuel with
    | zero => rfl
    | succ fuel =>
      unfold rowLoop referenceRows
      rw [if_neg (fun h => hnr h.2)]
  | succ todo ih =>
    intro fuel y r oi feo skip hr hyr hfuel hst
    have hrlt : r < rows := by omega
    have hylt : y < y_stop := by
      rw [hyr]; exact (step_lt_stop_iff y_start y_stop rows r hrows hy).mpr hrlt
    obtain ⟨fuel, rfl⟩ : ∃ f, fuel = f + 1 := ⟨fuel - 1, by omega⟩
    obtain ⟨c1, c2, c3⟩ := colLoop_referenceRow x_start x_stop y_start
      ((y_stop - y_start) / rows) y cols objects r hcols hx hyr cols
      (feo + (objects.length - oi)) x_start 0 oi feo skip (by omega) (by simp) le_rfl hst
    unfold rowLoop referenceRows
    rw [if_pos ⟨hylt, by exact_mod_cast hrlt⟩]
    simp only
    rw [c1]
    congr 1
    by_cases hdone : (colLoop x_stop cols ((x_stop - x_start) / cols) objects y r
        (feo + (objects.length - oi)) x_start 0 oi feo).2.1 < objects.length
    · rw [← c2]
      exact ih fuel _ (r + 1) _ _ _ (by omega) (by rw [hyr]; push_cast; ring) (by omega)
        (fun _ => c3 hdone)
    · rw [← c2]
      exact ih fuel _ (r + 1) _ _ _ (by omega) (by rw [hyr]; push_cast; ring) (by omega)
        (fun h => absurd h hdone)

theorem gridWalk_referenceWalk (x_start y_start x_stop y_stop : HPDF_REAL) (rows cols : ℕ)
    (objects : List PlannerBase) (offset : ℕ) (hrows : 0 < rows) (hcols : 0 < cols)
    (hx : x_start < x_stop) (hy : y_start < y_stop) :
    gridWalk x_start y_start x_stop y_stop rows cols objects offset =
      referenceWalk x_start y_start x_stop y_stop rows cols objects offset := by
  unfold gridWalk referenceWalk
  simp only [Nat.ceil_natCast]
  exact rowLoop_referenceRows x_start x_stop y_start y_stop rows cols objects hrows hcols hx hy
    rows rows y_start 0 0 offset offset (by omega) (by simp) le_rfl (fun _ => rfl)

theorem gridWalk_degenerate (x_start y_start x_stop y_stop num_rows num_cols : HPDF_REAL)
    (objects : List PlannerBase) (offset : ℕ) (h : x_stop ≤ x_start ∨ y_stop ≤ y_start) :
    gridWalk x_start y_start x_stop y_stop num_rows num_cols objects offset = [] := by
  rw [List.eq_nil_iff_forall_not_mem]
  intro c hc
  unfold gridWalk at hc
  obtain ⟨h1, h2, h3, h4, h5, h6, _⟩ :=
    rowLoop_cells x_start y_start x_stop y_stop num_cols ((x_stop - x_start) / num_cols)
      ((y_stop - y_start) / num_rows) num_rows objects _ y_start 0 0 offset (by simp) c hc
  rcases h with h | h
  · have hn : (0 : HPDF_REAL) < num_cols := lt_of_le_of_lt (Nat.cast_nonneg _) h3
    have ht1 : (c.col_num : HPDF_REAL) / num_cols < 1 := (div_lt_one hn).mpr h3
    have e : c.x = x_start + (x_stop - x_start) * ((c.col_num : HPDF_REAL) / num_cols) := by
      rw [h1]; ring
    nlinarith [mul_nonneg (sub_nonneg.mpr h) (sub_nonneg.mpr ht1.le)]
  · have hn : (0 : HPDF_REAL) < num_rows := lt_of_le_of_lt (Nat.cast_nonneg _) h4
    have ht1 : (c.row_num : HPDF_REAL) / num_rows < 1 := (div_lt_one hn).mpr h4
    have e : c.y = y_start + (y_stop - y_start) * ((c.row_num : HPDF_REAL) / num_rows) := by
      rw [h2]; ring
    nlinarith [mul_nonneg (sub_nonneg.mpr h) (sub_nonneg.mpr ht1.le)]

theorem gridCells_accepted (x_start y_start x_stop y_stop num_rows num_cols : HPDF_REAL)
    (objects : List PlannerBase) (offset : ℕ)
    (h : ¬ capacityExceeded num_rows num_cols objects offset) :
    gridCells x_start y_start x_stop y_stop num_rows num_cols objects offset =
      gridWalk x_start y_start x_stop y_stop num_rows num_cols objects offset := by
  unfold gridCells
  rw [if_neg h]

/-- C11, refuted on the code.  On a region of no width (`x_start = x_stop = 50`) a grid of
one cell with one child passes the capacity check; the reference walk, bounded by
`row < rows` and `col < cols` only, places the child in cell (0,0), while `CreateGrid`
places nothing, because its inner loop also requires `x < x_stop`. -/
theorem CreateGrid_walk_not_purely_geometric :
    ¬ capacityExceeded ((1 : ℕ) : HPDF_REAL) ((1 : ℕ) : HPDF_REAL) [sampleNode 0] 0 ∧
    referenceWalk 50 0 50 100 1 1 [sampleNode 0] 0 = [⟨0, 0, 50, 0, 0, sampleNode 0⟩] ∧
    gridCells 50 0 50 100 ((1 : ℕ) : HPDF_REAL) ((1 : ℕ) : HPDF_REAL) [sampleNode 0] 0 = [] ∧
    (CreateGrid sampleBackend 50 0 50 100 ((1 : ℕ) : HPDF_REAL) ((1 : ℕ) : HPDF_REAL)
        [sampleNode 0] true 0 false 0 0 800 10).page.filter isPlacementOp = [] ∧
    gridCells 50 0 50 100 ((1 : ℕ) : HPDF_REAL) ((1 : ℕ) : HPDF_REAL) [sampleNode 0] 0 ≠
      referenceWalk 50 0 50 100 1 1 [sampleNode 0] 0 := by
  have hpass : ¬ capacityExceeded ((1 : ℕ) : HPDF_REAL) ((1 : ℕ) : HPDF_REAL)
      [sampleNode 0] 0 := by
    norm_num [capacityExceeded, size_t_add, SIZE_T_RANGE]
  have href : referenceWalk 50 0 50 100 1 1 [sampleNode 0] 0 =
      [⟨0, 0, 50, 0, 0, sampleNode 0⟩] := by
    norm_num [referenceWalk, referenceRows, referenceRow]
  have hcode : gridCells 50 0 50 100 ((1 : ℕ) : HPDF_REAL) ((1 : ℕ) : HPDF_REAL)
      [sampleNode 0] 0 = [] := by
    rw [gridCells_accepted _ _ _ _ _ _ _ _ hpass]
    exact gridWalk_degenerate _ _ _ _ _ _ _ _ (Or.inl le_rfl)
  refine ⟨hpass, href, hcode, ?_, ?_⟩
  · rw [CreateGrid_placementOps _ _ _ _ _ _ _ _ _ _ _ _ _ _ _ 1 1 rfl rfl, hcode]
    rfl
  · rw [hcode, href]
    exact (List.cons_ne_nil _ _).symm

/-- C11 as the code has it.  The traversal is bounded by the row and column counts, by
the region (`y < y_stop`, `x < x_stop`) and by `object_index < objects.size()`.  For every
call that passes the capacity check with `rows ≥ 1` and `cols ≥ 1`: on a region with
`x_start < x_stop` and `y_start < y_stop` the placements, and with them the placement
calls on the page, are those of the reference walk over all cells with `row < rows` and
`col < cols`; on a region with `x_stop ≤ x_start` or `y_stop ≤ y_start` no child is
placed. -/
theorem CreateGrid_walk_refines_reference (bk : Backend)
    (x_start y_start x_stop y_stop : HPDF_REAL) (rows cols : ℕ) (objects : List PlannerBase)
    (create_annotations : Bool) (offset : ℕ) (create_thumbnail : Bool)
    (page_type object_type : PlannerTypes) (page_height padding : HPDF_REAL)
    (hrows : 1 ≤ rows) (hcols : 1 ≤ cols)
    (hpass : ¬ capacityExceeded rows cols objects offset) :
    (x_start < x_stop → y_start < y_stop →
      gridCells x_start y_start x_stop y_stop rows cols objects offset =
        referenceWalk x_start y_start x_stop y_stop rows cols objects offset ∧
      (CreateGrid bk x_start y_start x_stop y_stop rows cols objects create_annotations offset
          create_thumbnail page_type object_type page_height padding).page.filter
          isPlacementOp =
        (referenceWalk x_start y_start x_stop y_stop rows cols objects offset).flatMap
          (placeOps bk ((x_stop - x_start) / cols) ((y_stop - y_start) / rows)
            create_annotations create_thumbnail page_type object_type page_height padding)) ∧
    (x_stop ≤ x_start ∨ y_stop ≤ y_start →
      gridCells x_start y_start x_stop y_stop rows cols objects offset = [] ∧
      (CreateGrid bk x_start y_start x_stop y_stop rows cols objects create_annotations offset
          create_thumbnail page_type object_type page_height padding).page.filter
          isPlacementOp = []) := by
  have hops := CreateGrid_placementOps bk x_start y_start x_stop y_stop rows cols objects
    create_annotations offset create_thumbnail page_type object_type page_height padding rows
    cols rfl rfl
  constructor
  · intro hx hy
    have e : gridCells x_start y_start x_stop y_stop rows cols objects offset =
        referenceWalk x_start y_start x_stop y_stop rows cols objects offset := by
      rw [gridCells_accepted _ _ _ _ _ _ _ _ hpass]
      exact gridWalk_referenceWalk x_start y_start x_stop y_stop rows cols objects offset
        hrows hcols hx hy
    exact ⟨e, by rw [hops, e]⟩
  · intro hdeg
    have e : gridCells x_start y_start x_stop y_stop rows cols objects offset = [] := by
      rw [gridCells_accepted _ _ _ _ _ _ _ _ hpass]
      exact gridWalk_degenerate _ _ _ _ _ _ _ _ hdeg
    exact ⟨e, by rw [hops, e]; rfl⟩

/-- C11 as the code has it, on a grid of 2 rows and 3 columns with two children and
offset 1: over the region (0,0)-(300,200) the walk is the reference walk, which places the
children in the cells (0,1) and (0,2); over a region of no height nothing is placed. -/
theorem CreateGrid_walk_refines_reference_witness :
    (gridCells 0 0 300 200 ((2 : ℕ) : HPDF_REAL) ((3 : ℕ) : HPDF_REAL)
        [sampleNode 0, sampleNode 1] 1 =
      referenceWalk 0 0 300 200 2 3 [sampleNode 0, sampleNode 1] 1 ∧
     referenceWalk 0 0 300 200 2 3 [sampleNode 0, sampleNode 1] 1 =
      [⟨0, 1, 100, 0, 0, sampleNode 0⟩, ⟨0, 2, 200, 0, 1, sampleNode 1⟩]) ∧
    gridCells 0 70 300 70 ((2 : ℕ) : HPDF_REAL) ((3 : ℕ) : HPDF_REAL)
        [sampleNode 0, sampleNode 1] 1 = [] :=
  have hpass : ¬ capacityExceeded ((2 : ℕ) : HPDF_REAL) ((3 : ℕ) : HPDF_REAL)
      [sampleNode 0, sampleNode 1] 1 := by
    norm_num [capacityExceeded, size_t_add, SIZE_T_RANGE]
  ⟨⟨((CreateGrid_walk_refines_reference sampleBackend 0 0 300 200 2 3
        [sampleNode 0, sampleNode 1] true 1 false 0 0 800 10 (by decide) (by decide)
        hpass).1 (by norm_num) (by norm_num)).1,
     by norm_num [referenceWalk, referenceRows, referenceRow]⟩,
   ((CreateGrid_walk_refines_reference sampleBackend 0 70 300 70 2 3
        [sampleNode 0, sampleNode 1] true 1 false 0 0 800 10 (by decide) (by decide)
        hpass).2 (Or.inr le_rfl)).1⟩

theorem textPositions_append (a b : List PageOp) :
    textPositions (a ++ b) = textPositions a ++ textPositions b := by
  induction a with
  | nil => simp [textPositions]
  | cons op ops ih => cases op <;> simp [textPositions, ih]

theorem textPositions_rowLines (x_start y_start x_stop ys num_rows page_height : HPDF_REAL) :
    ∀ (fuel r : ℕ),
      textPositions (rowLines x_start y_start x_stop ys num_rows page_height fuel r) = [] := by
  intro fuel
  induction fuel with
  | zero => intro r; simp [rowLines, textPositions]
  | succ fuel ih =>
    intro r
    unfold rowLines
    split_ifs
    · simp [textPositions, ih]
    · simp [textPositions]

theorem textPositions_colLines (x_start y_start y_stop xs num_cols page_height : HPDF_REAL) :
    ∀ (fuel c : ℕ),
      textPositions (colLines x_start y_start y_stop xs num_cols page_height fuel c) = [] := by
  intro fuel
  induction fuel with
  | zero => intro c; simp [colLines, textPositions]
  | succ fuel ih =>
    intro c
    unfold colLines
    split_ifs
    · simp [textPositions, ih]
    · simp [textPositions]

theorem textPositions_flatMap_placeOps (bk : Backend) (xs ys : HPDF_REAL) (ca ct : Bool)
    (pt ot : PlannerTypes) (ph padding : HPDF_REAL) (cells : List GridCell) :
    textPositions (cells.flatMap (placeOps bk xs ys ca ct pt ot ph padding)) =
      cells.map (fun c =>
        (bk.GetCenteredTextXPosition "Helvetica" 25 c.object.GetGridString
            (paddedCell xs ys padding c).x_pad_start (paddedCell xs ys padding c).x_pad_end,
          ph - (paddedCell xs ys padding c).y_pad_start - 30)) := by
  induction cells with
  | nil => simp [textPositions]
  | cons c cs ih =>
    rw [List.flatMap_cons, textPositions_append, ih]
    cases ca <;> cases ct <;> simp [placeOps, textPositions]

theorem textPositions_CreateGrid (bk : Backend)
    (x_start y_start x_stop y_stop num_rows num_cols : HPDF_REAL)
    (objects : List PlannerBase) (create_annotations : Bool) (first_entry_offset : ℕ)
    (create_thumbnail : Bool) (page_type object_type : PlannerTypes)
    (page_height padding : HPDF_REAL) :
    textPositions (CreateGrid bk x_start y_start x_stop y_stop num_rows num_cols objects
        create_annotations first_entry_offset create_thumbnail page_type object_type
        page_height padding).page =
      (gridCells x_start y_start x_stop y_stop num_rows num_cols objects
          first_entry_offset).map (fun c =>
        (bk.GetCenteredTextXPosition "Helvetica" 25 c.object.GetGridString
            (paddedCell ((x_stop - x_start) / num_cols) ((y_stop - y_start) / num_rows)
              padding c).x_pad_start
            (paddedCell ((x_stop - x_start) / num_cols) ((y_stop - y_start) / num_rows)
              padding c).x_pad_end,
          page_height - (paddedCell ((x_stop - x_start) / num_cols)
            ((y_stop - y_start) / num_rows) padding c).y_pad_start - 30)) := by
  by_cases h : capacityExceeded num_rows num_cols objects first_entry_offset
  · rw [CreateGrid_rejected _ _ _ _ _ _ _ _ _ _ _ _ _ _ _ h]
    simp [gridCells, h, textPositions]
  · rw [CreateGrid_accepted _ _ _ _ _ _ _ _ _ _ _ _ _ _ _ h]
    simp only [textPositions_append, textPositions_rowLines, textPositions_colLines,
      textPositions_flatMap_placeOps, List.append_nil]
    simp [textPositions]

theorem gridCells_coordinates (x_start y_start x_stop y_stop num_rows num_cols : HPDF_REAL)
    (objects : List PlannerBase) (offset : ℕ) (c : GridCell)
    (hc : c ∈ gridCells x_start y_start x_stop y_stop num_rows num_cols objects offset) :
    c.x = x_start + (c.col_num : HPDF_REAL) * ((x_stop - x_start) / num_cols) ∧
      c.y = y_start + (c.row_num : HPDF_REAL) * ((y_stop - y_start) / num_rows) := by
  unfold gridCells at hc
  split_ifs at hc with hcap
  · simp at hc
  · unfold gridWalk at hc
    obtain ⟨h1, h2, _⟩ :=
      rowLoop_cells x_start y_start x_stop y_stop num_cols ((x_stop - x_start) / num_cols)
        ((y_stop - y_start) / num_rows) num_rows objects _ y_start 0 0 offset (by simp) c hc
    exact ⟨h1, h2⟩

/-- C12, refuted on the code.  On a grid of one cell over (0,0)-(100,100) with padding 10 and
page height 800 the child is placed in row 0 and its label is moved to `y = 760`, which is
`page_height - (y_start + 0 * yStep + padding) - 30`, not the 770 of
`page_height - (y_start + 0 * yStep) - 30`. -/
theorem CreateGrid_label_y_includes_padding :
    (gridCells 0 0 100 100 1 1 [sampleNode 0] 0).map (fun c => c.row_num) = [0] ∧
    (textPositions (CreateGrid sampleBackend 0 0 100 100 1 1 [sampleNode 0] true 0 false 0 0
        800 10).page).map Prod.snd = [760] ∧
    (760 : HPDF_REAL) ≠ 800 - (0 + ((0 : ℕ) : HPDF_REAL) * ((100 - 0) / 1)) - 30 := by
  refine ⟨?_, ?_, by norm_num⟩
  · norm_num [gridCells, gridWalk, capacityExceeded, size_t_add, SIZE_T_RANGE, rowLoop,
      colLoop]
  · rw [textPositions_CreateGrid]
    norm_num [gridCells, gridWalk, capacityExceeded, size_t_add, SIZE_T_RANGE, rowLoop,
      colLoop, paddedCell]

/-- C12 as the code has it.  For every call, the label of a child placed in row `r` is
moved to the document y-coordinate `page_height - (y_start + r * yStep + padding) - 30`:
30 units below the top edge of the padded cell, which lies `padding` below the row
boundary; the x-coordinate centres the label in the padded horizontal span. -/
theorem CreateGrid_label_position (bk : Backend)
    (x_start y_start x_stop y_stop num_rows num_cols : HPDF_REAL)
    (objects : List PlannerBase) (create_annotations : Bool) (first_entry_offset : ℕ)
    (create_thumbnail : Bool) (page_type object_type : PlannerTypes)
    (page_height padding : HPDF_REAL) :
    textPositions (CreateGrid bk x_start y_start x_stop y_stop num_rows num_cols objects
        create_annotations first_entry_offset create_thumbnail page_type object_type
        page_height padding).page =
      (gridCells x_start y_start x_stop y_stop num_rows num_cols objects
          first_entry_offset).map (fun c =>
        (bk.GetCenteredTextXPosition "Helvetica" 25 c.object.GetGridString
            (x_start + (c.col_num : HPDF_REAL) * ((x_stop - x_start) / num_cols) + padding)
            (x_start + ((c.col_num : HPDF_REAL) + 1) * ((x_stop - x_start) / num_cols)
              - padding),
          page_height
            - (y_start + (c.row_num : HPDF_REAL) * ((y_stop - y_start) / num_rows) + padding)
            - 30)) := by
  rw [textPositions_CreateGrid]
  apply List.map_congr_left
  intro c hc
  obtain ⟨h1, h2⟩ := gridCells_coordinates _ _ _ _ _ _ _ _ c hc
  simp only [paddedCell]
  rw [h1, h2]
  congr 2
  ring

/-! ## Link rectangles and grid cells -/

theorem gridWalk_rowMajor_take (x_start y_start x_stop y_stop : HPDF_REAL) (rows cols : ℕ)
    (objects : List PlannerBase) (offset : ℕ) (hrows : 0 < rows) (hcols : 0 < cols)
    (hx : x_start < x_stop) (hy : y_start < y_stop) :
    ∃ k, gridWalk x_start y_start x_stop y_stop rows cols objects offset =
      rowMajorCells x_start y_start ((x_stop - x_start) / cols) ((y_stop - y_start) / rows)
        cols offset 0 (objects.take k) := by
  obtain ⟨k, e, _, _⟩ :=
    rowLoop_rowMajor x_start x_stop y_start y_stop rows cols objects offset hrows hcols hx hy
      rows y_start 0 0 offset (by simp) (Nat.zero_le _) (by omega) (Nat.zero_le _)
      (by intro _; omega)
  refine ⟨k, ?_⟩
  unfold gridWalk
  simp only [Nat.ceil_natCast]
  rw [e]
  simp

theorem linkAnnots_CreateGrid_accepted (bk : Backend)
    (x_start y_start x_stop y_stop num_rows num_cols : HPDF_REAL)
    (objects : List PlannerBase) (first_entry_offset : ℕ)
    (create_thumbnail : Bool) (page_type object_type : PlannerTypes)
    (page_height padding : HPDF_REAL)
    (h : ¬ capacityExceeded num_rows num_cols objects first_entry_offset) :
    linkAnnots (CreateGrid bk x_start y_start x_stop y_stop num_rows num_cols objects true
        first_entry_offset create_thumbnail page_type object_type page_height padding).page =
      (gridWalk x_start y_start x_stop y_stop num_rows num_cols objects
          first_entry_offset).map (fun c =>
        (gridLinkRect ((x_stop - x_start) / num_cols) ((y_stop - y_start) / num_rows)
          create_thumbnail page_height padding c, c.object.GetPage)) := by
  rw [CreateGrid_accepted _ _ _ _ _ _ _ _ _ _ _ _ _ _ _ h,
    gridCells_accepted _ _ _ _ _ _ _ _ h]
  simp only [linkAnnots_append, linkAnnots_rowLines, linkAnnots_colLines,
    linkAnnots_flatMap_placeOps, List.append_nil]
  simp [linkAnnots, gridLinkRect]

theorem rowMajorCells_getElem? (x_start y_start xs ys : HPDF_REAL) (cols offset : ℕ) :
    ∀ (l : List PlannerBase) (j i : ℕ) (c : GridCell),
      (rowMajorCells x_start y_start xs ys cols offset j l)[i]? = some c →
      ∃ object, c = cellAt x_start y_start xs ys cols (offset + (j + i)) (j + i) object := by
  intro l
  induction l with
  | nil => intro j i c h; simp [rowMajorCells] at h
  | cons a l ih =>
    intro j i c h
    cases i with
    | zero =>
      simp only [rowMajorCells, List.getElem?_cons_zero, Option.some.injEq] at h
      exact ⟨a, h.symm⟩
    | succ i =>
      simp only [rowMajorCells, List.getElem?_cons_succ] at h
      obtain ⟨object, e⟩ := ih (j + 1) i c h
      refine ⟨object, ?_⟩
      have e1 : j + 1 + i = j + (i + 1) := by omega
      rw [e, e1]

theorem rowMajorCells_mem (x_start y_start xs ys : HPDF_REAL) (cols offset : ℕ) :
    ∀ (l : List PlannerBase) (j : ℕ) (c : GridCell),
      c ∈ rowMajorCells x_start y_start xs ys cols offset j l →
      ∃ m object, j ≤ m ∧ c = cellAt x_start y_start xs ys cols (offset + m) m object := by
  intro l j c h
  obtain ⟨i, hi⟩ := List.getElem?_of_mem h
  obtain ⟨object, e⟩ := rowMajorCells_getElem? x_start y_start xs ys cols offset l j i c hi
  exact ⟨j + i, object, Nat.le_add_right _ _, e⟩

theorem gridLinkRect_cellAt_within (x_start y_start xs ys : HPDF_REAL) (cols k i : ℕ)
    (object : PlannerBase) (ct : Bool) (ph padding : HPDF_REAL) (hpad : 0 ≤ padding)
    (hpx : 2 * padding ≤ xs) (hpy : 2 * padding ≤ ys) (hth : ct = true → padding + 50 ≤ ys) :
    (gridLinkRect xs ys ct ph padding
        (cellAt x_start y_start xs ys cols k i object)).within
      (x_start + ((k % cols : ℕ) : HPDF_REAL) * xs)
      (ph - (y_start + (((k / cols : ℕ) : HPDF_REAL) + 1) * ys))
      (x_start + (((k % cols : ℕ) : HPDF_REAL) + 1) * xs)
      (ph - (y_start + ((k / cols : ℕ) : HPDF_REAL) * ys)) := by
  cases ct with
  | true =>
    have h50 := hth rfl
    simp only [gridLinkRect, paddedCell, cellAt, HPDF_Rect.within, if_true]
    refine ⟨?_, ?_, ?_, ?_, ?_, ?_⟩ <;> linarith
  | false =>
    simp only [gridLinkRect, paddedCell, cellAt, HPDF_Rect.within, Bool.false_eq_true,
      if_false]
    refine ⟨?_, ?_, ?_, ?_, ?_, ?_⟩ <;> linarith

theorem within_cells_disjoint (x_start y_start xs ys ph : HPDF_REAL) (cols k₁ k₂ : ℕ)
    (a b : HPDF_Rect) (hxs : 0 ≤ xs) (hys : 0 ≤ ys) (hne : k₁ ≠ k₂)
    (ha : a.within (x_start + ((k₁ % cols : ℕ) : HPDF_REAL) * xs)
      (ph - (y_start + (((k₁ / cols : ℕ) : HPDF_REAL) + 1) * ys))
      (x_start + (((k₁ % cols : ℕ) : HPDF_REAL) + 1) * xs)
      (ph - (y_start + ((k₁ / cols : ℕ) : HPDF_REAL) * ys)))
    (hb : b.within (x_start + ((k₂ % cols : ℕ) : HPDF_REAL) * xs)
      (ph - (y_start + (((k₂ / cols : ℕ) : HPDF_REAL) + 1) * ys))
      (x_start + (((k₂ % cols : ℕ) : HPDF_REAL) + 1) * xs)
      (ph - (y_start + ((k₂ / cols : ℕ) : HPDF_REAL) * ys))) :
    ¬ sharesInterior a b := by
  rintro ⟨px, py, ⟨a1, a2, a3, a4⟩, ⟨b1, b2, b3, b4⟩⟩
  obtain ⟨ha1, _, ha3, ha4, _, ha6⟩ := ha
  obtain ⟨hb1, _, hb3, hb4, _, hb6⟩ := hb
  have step : ∀ (m n : ℕ) (s : HPDF_REAL), 0 ≤ s → m < n →
      ((m : HPDF_REAL) + 1) * s ≤ (n : HPDF_REAL) * s := by
    intro m n s hs hmn
    have : ((m : HPDF_REAL) + 1) ≤ (n : HPDF_REAL) := by exact_mod_cast hmn
    exact mul_le_mul_of_nonneg_right this hs
  rcases Nat.lt_trichotomy (k₁ % cols) (k₂ % cols) with hc | hc | hc
  · have := step _ _ xs hxs hc
    linarith
  · rcases Nat.lt_trichotomy (k₁ / cols) (k₂ / cols) with hr | hr | hr
    · have := step _ _ ys hys hr
      linarith
    · apply hne
      rw [← Nat.div_add_mod k₁ cols, ← Nat.div_add_mod k₂ cols, hc, hr]
    · have := step _ _ ys hys hr
      linarith
  · have := step _ _ xs hxs hc
    linarith

theorem rowMajorCells_links_pairwise (x_start y_start xs ys : HPDF_REAL) (cols offset : ℕ)
    (ct : Bool) (ph padding : HPDF_REAL) (hpad : 0 ≤ padding)
    (hpx : 2 * padding ≤ xs) (hpy : 2 * padding ≤ ys) (hth : ct = true → padding + 50 ≤ ys) :
    ∀ (l : List PlannerBase) (j : ℕ),
      (rowMajorCells x_start y_start xs ys cols offset j l).Pairwise (fun c₁ c₂ =>
        ¬ sharesInterior (gridLinkRect xs ys ct ph padding c₁)
          (gridLinkRect xs ys ct ph padding c₂)) := by
  intro l
  induction l with
  | nil => intro j; simp [rowMajorCells]
  | cons a l ih =>
    intro j
    simp only [rowMajorCells, List.pairwise_cons]
    refine ⟨?_, ih (j + 1)⟩
    intro c hc
    obtain ⟨m, object, hm, e⟩ := rowMajorCells_mem x_start y_start xs ys cols offset l (j + 1) c hc
    rw [e]
    exact within_cells_disjoint x_start y_start xs ys ph cols (offset + j) (offset + m) _ _
      (by linarith) (by linarith) (by omega)
      (gridLinkRect_cellAt_within x_start y_start xs ys cols _ _ _ ct ph padding hpad hpx hpy
        hth)
      (gridLinkRect_cellAt_within x_start y_start xs ys cols _ _ _ ct ph padding hpad hpx hpy
        hth)

/-- C13.  For every call that passes the capacity check with `create_annotations` set, on
a grid of `rows ≥ 1` by `cols ≥ 1` cells over a region with `x_start < x_stop` and
`y_start < y_stop`, with `padding ≥ 0`, `2 * padding ≤ xStep`, `2 * padding ≤ yStep` and,
when `create_thumbnail` is set, `padding + 50 ≤ yStep`: the `i`-th link rectangle lies in
the cell of the `i`-th placed child, row `(offset + i) / cols` and column
`(offset + i) % cols`, taken in flipped document coordinates, and no two link rectangles of
the call share an interior point. -/
theorem CreateGrid_links_inside_cells (bk : Backend)
    (x_start y_start x_stop y_stop : HPDF_REAL) (rows cols : ℕ) (objects : List PlannerBase)
    (offset : ℕ) (create_thumbnail : Bool) (page_type object_type : PlannerTypes)
    (page_height padding : HPDF_REAL)
    (hpass : ¬ capacityExceeded rows cols objects offset)
    (hrows : 1 ≤ rows) (hcols : 1 ≤ cols) (hx : x_start < x_stop) (hy : y_start < y_stop)
    (hpad : 0 ≤ padding) (hpx : 2 * padding ≤ (x_stop - x_start) / cols)
    (hpy : 2 * padding ≤ (y_stop - y_start) / rows)
    (hthumb : create_thumbnail = true → padding + 50 ≤ (y_stop - y_start) / rows) :
    (∀ (i : ℕ) (rect : HPDF_Rect) (target : HPDF_Page),
      (linkAnnots (CreateGrid bk x_start y_start x_stop y_stop rows cols objects true offset
          create_thumbnail page_type object_type page_height padding).page)[i]? =
        some (rect, target) →
      rect.within
        (x_start + (((offset + i) % cols : ℕ) : HPDF_REAL) * ((x_stop - x_start) / cols))
        (page_height -
          (y_start + ((((offset + i) / cols : ℕ) : HPDF_REAL) + 1) * ((y_stop - y_start) / rows)))
        (x_start + ((((offset + i) % cols : ℕ) : HPDF_REAL) + 1) * ((x_stop - x_start) / cols))
        (page_height -
          (y_start + (((offset + i) / cols : ℕ) : HPDF_REAL) * ((y_stop - y_start) / rows)))) ∧
    (linkAnnots (CreateGrid bk x_start y_start x_stop y_stop rows cols objects true offset
        create_thumbnail page_type object_type page_height padding).page).Pairwise
      (fun a b => ¬ sharesInterior a.1 b.1) := by
  obtain ⟨k, e⟩ := gridWalk_rowMajor_take x_start y_start x_stop y_stop rows cols objects
    offset hrows hcols hx hy
  rw [linkAnnots_CreateGrid_accepted _ _ _ _ _ _ _ _ _ _ _ _ _ _ hpass, e]
  constructor
  · intro i rect target h
    rw [List.getElem?_map] at h
    cases hci : (rowMajorCells x_start y_start ((x_stop - x_start) / cols)
        ((y_stop - y_start) / rows) cols offset 0 (objects.take k))[i]? with
    | none => rw [hci] at h; simp at h
    | some c =>
      rw [hci] at h
      simp only [Option.map_some', Option.some.injEq, Prod.mk.injEq] at h
      obtain ⟨object, ec⟩ := rowMajorCells_getElem? _ _ _ _ _ _ _ _ _ _ hci
      rw [← h.1, ec, Nat.zero_add]
      exact gridLinkRect_cellAt_within x_start y_start _ _ cols _ _ _ create_thumbnail
        page_height padding hpad hpx hpy hthumb
  · rw [List.pairwise_map]
    exact rowMajorCells_links_pairwise x_start y_start _ _ cols offset create_thumbnail
      page_height padding hpad hpx hpy hthumb _ 0

/-- C13 on a grid of 2 rows and 3 columns over (0,0)-(300,200) with padding 10, thumbnails
and two children from offset 1: the two link rectangles are (110,740)-(190,790) in cell
(0,1) and (210,740)-(290,790) in cell (0,2). -/
theorem CreateGrid_links_inside_cells_witness :
    linkAnnots (CreateGrid sampleBackend 0 0 300 200 ((2 : ℕ) : HPDF_REAL)
        ((3 : ℕ) : HPDF_REAL) [sampleNode 0, sampleNode 1] true 1 true 0 0 800 10).page =
      [(⟨110, 740, 190, 790⟩, 100), (⟨210, 740, 290, 790⟩, 101)] ∧
    (∀ (i : ℕ) (rect : HPDF_Rect) (target : HPDF_Page),
      (linkAnnots (CreateGrid sampleBackend 0 0 300 200 ((2 : ℕ) : HPDF_REAL)
          ((3 : ℕ) : HPDF_REAL) [sampleNode 0, sampleNode 1] true 1 true 0 0 800 10).page)[i]? =
        some (rect, target) →
      rect.within
        (0 + (((1 + i) % 3 : ℕ) : HPDF_REAL) * ((300 - 0) / ((3 : ℕ) : HPDF_REAL)))
        (800 - (0 + ((((1 + i) / 3 : ℕ) : HPDF_REAL) + 1) * ((200 - 0) / ((2 : ℕ) : HPDF_REAL))))
        (0 + ((((1 + i) % 3 : ℕ) : HPDF_REAL) + 1) * ((300 - 0) / ((3 : ℕ) : HPDF_REAL)))
        (800 - (0 + (((1 + i) / 3 : ℕ) : HPDF_REAL) * ((200 - 0) / ((2 : ℕ) : HPDF_REAL))))) ∧
    (linkAnnots (CreateGrid sampleBackend 0 0 300 200 ((2 : ℕ) : HPDF_REAL)
        ((3 : ℕ) : HPDF_REAL) [sampleNode 0, sampleNode 1] true 1 true 0 0 800 10).page).Pairwise
      (fun a b => ¬ sharesInterior a.1 b.1) :=
  have hpass : ¬ capacityExceeded ((2 : ℕ) : HPDF_REAL) ((3 : ℕ) : HPDF_REAL)
      [sampleNode 0, sampleNode 1] 1 := by
    norm_num [capacityExceeded, size_t_add, SIZE_T_RANGE]
  have h := CreateGrid_links_inside_cells sampleBackend 0 0 300 200 2 3
    [sampleNode 0, sampleNode 1] 1 true 0 0 800 10 hpass (by decide) (by decide)
    (by norm_num) (by norm_num) (by norm_num) (by norm_num) (by norm_num)
    (fun _ => by norm_num)
  ⟨by
    rw [linkAnnots_CreateGrid_accepted _ _ _ _ _ _ _ _ _ _ _ _ _ _ hpass]
    norm_num [gridWalk, rowLoop, colLoop, gridLinkRect, paddedCell, sampleNode,
      PlannerBase.GetPage], h.1, h.2⟩

end PlannerPDF
